import Mathlib

/-
  Verification development for the bandaid security-proxy core.

  The Python sources under src/bandaid are shallowly embedded below:
  pure functions become Lean functions, stateful stores become explicit
  state passing, fallible code returns Except.  Confidence scores and
  similarities (Python floats) are embedded as exact rationals; regular
  expressions are embedded by a small matcher-combinator engine that
  mirrors the Python re module's leftmost, preference-order (backtracking)
  semantics, including greedy/lazy repetition, word boundaries, negative
  lookarounds and the capture of group 1 (re.findall returns the group-1
  capture when a pattern has exactly one capturing group).
-/

/-! ### Generic list helpers: Python's stable sort -/

/-- One step of Python's stable sort, modelled as insertion into an already
sorted list: `le a b` means `a` may be placed before `b`.  Ties keep the
earlier element first, which matches the stability of `list.sort`. -/
def pyInsert (le : α → α → Bool) (a : α) : List α → List α
  | [] => [a]
  | b :: t => if le a b then a :: b :: t else b :: pyInsert le a t

/-- Python's `list.sort` (stable) modelled as insertion sort. -/
def pySortBy (le : α → α → Bool) : List α → List α
  | [] => []
  | a :: t => pyInsert le a (pySortBy le t)

/-- Python's `str.split()` with no argument: split on runs of whitespace,
discarding empty pieces. -/
def pySplitAux (cur : List Char) (acc : List String) : List Char → List String
  | [] => if cur.isEmpty then acc.reverse else acc.reverse ++ [String.mk cur.reverse]
  | c :: t =>
      if c = ' ' ∨ c = '\t' ∨ c = '\n' ∨ c = '\r' then
        if cur.isEmpty then pySplitAux [] acc t
        else pySplitAux [] (String.mk cur.reverse :: acc) t
      else pySplitAux (c :: cur) acc t

def pySplit (s : String) : List String :=
  pySplitAux [] [] s.toList

/-- Python's `str.lower()` over the character list (kernel-reducible,
unlike `String.toLower`). -/
def strLower (s : String) : String :=
  String.mk (s.toList.map Char.toLower)

/-- Python's `sub in s` substring containment. -/
def strContainsAux (sub : List Char) : List Char → Bool
  | [] => sub.isEmpty
  | c :: t => sub.isPrefixOf (c :: t) || strContainsAux sub t

def strContains (s sub : String) : Bool :=
  strContainsAux sub.toList s.toList

/-- Python's `s.replace(old, new, 1)`: replace the first occurrence only.
If `old` does not occur (or is empty we still mirror Python: an empty
`old` inserts at the front), the scan walks the character list. -/
def replaceFirstAux (old new : List Char) (seen : List Char) : List Char → List Char
  | [] => seen.reverse
  | c :: t =>
      if old.isPrefixOf (c :: t) then
        seen.reverse ++ new ++ (c :: t).drop old.length
      else replaceFirstAux old new (c :: seen) t

def replaceFirst (s old new : String) : String :=
  String.mk (replaceFirstAux old.toList new.toList [] s.toList)

/-! ### Regex matcher combinators

A matcher takes the character just before the current position (for `\b`
and lookbehind) and the remaining input, and returns the candidate match
results in the backtracking preference order of Python's re module.
Each result carries the matched length and, when a marked group matched,
the offset and length of the group-1 capture relative to the match start. -/

structure MRes where
  len : Nat
  cap : Option (Nat × Nat)
deriving DecidableEq, Repr

def MatcherT : Type := Option Char → List Char → List MRes

/-- Empty pattern: matches zero characters. -/
def mEps : MatcherT := fun _ _ => [⟨0, none⟩]

/-- A single-character class. -/
def mCls (p : Char → Bool) : MatcherT := fun _ s =>
  match s with
  | [] => []
  | c :: _ => if p c then [⟨1, none⟩] else []

/-- The previous character after consuming `n` characters of `s`. -/
def prevAfter (prev : Option Char) (s : List Char) (n : Nat) : Option Char :=
  if n = 0 then prev else (s.take n).getLast?

/-- Shift a capture span by an offset. -/
def capShift (n : Nat) : Option (Nat × Nat) → Option (Nat × Nat)
  | none => none
  | some (a, b) => some (n + a, b)

/-- Concatenation; group captures from the left part take precedence
(each of our source patterns marks at most one group). -/
def mSeq (a b : MatcherT) : MatcherT := fun prev s =>
  (a prev s).flatMap fun r =>
    (b (prevAfter prev s r.len) (s.drop r.len)).map fun r2 =>
      ⟨r.len + r2.len, match r.cap with
        | some c => some c
        | none => capShift r.len r2.cap⟩

/-- Alternation, left branch preferred (Python semantics). -/
def mAlt (a b : MatcherT) : MatcherT := fun prev s => a prev s ++ b prev s

/-- Greedy option `a?`. -/
def mOpt (a : MatcherT) : MatcherT := mAlt a mEps

/-- Mark the pattern as capturing group 1. -/
def mGrp (a : MatcherT) : MatcherT := fun prev s =>
  (a prev s).map fun r => ⟨r.len, some (0, r.len)⟩

/-- Greedy star.  Fuelled: each iteration must consume at least one
character, so fuel `s.length + 1` is exact.  Later iterations' captures
take precedence (Python keeps the last repetition's group). -/
def mStarAux (a : MatcherT) : Nat → Option Char → List Char → List MRes
  | 0, _, _ => [⟨0, none⟩]
  | fuel + 1, prev, s =>
      (((a prev s).filter fun r => r.len ≠ 0).flatMap fun r =>
        (mStarAux a fuel (prevAfter prev s r.len) (s.drop r.len)).map fun r2 =>
          ⟨r.len + r2.len, match r2.cap with
            | some c => capShift r.len (some c)
            | none => r.cap⟩) ++ [⟨0, none⟩]

def mStar (a : MatcherT) : MatcherT := fun prev s =>
  mStarAux a (s.length + 1) prev s

/-- Lazy star (`*?`): prefers the shortest match. -/
def mStarLazyAux (a : MatcherT) : Nat → Option Char → List Char → List MRes
  | 0, _, _ => [⟨0, none⟩]
  | fuel + 1, prev, s =>
      ⟨0, none⟩ ::
      (((a prev s).filter fun r => r.len ≠ 0).flatMap fun r =>
        (mStarLazyAux a fuel (prevAfter prev s r.len) (s.drop r.len)).map fun r2 =>
          ⟨r.len + r2.len, match r2.cap with
            | some c => capShift r.len (some c)
            | none => r.cap⟩)

def mStarLazy (a : MatcherT) : MatcherT := fun prev s =>
  mStarLazyAux a (s.length + 1) prev s

/-- Greedy `a+`. -/
def mPlus (a : MatcherT) : MatcherT := mSeq a (mStar a)

/-- Exactly `n` copies of `a`. -/
def mRepExact (a : MatcherT) : Nat → MatcherT
  | 0 => mEps
  | n + 1 => mSeq a (mRepExact a n)

/-- Up to `n` further copies of `a`, greedy (prefer matching again). -/
def mRepUpTo (a : MatcherT) : Nat → MatcherT
  | 0 => mEps
  | n + 1 => mAlt (mSeq a (mRepUpTo a n)) mEps

/-- Bounded repetition `a{lo,hi}`, greedy. -/
def mRepRange (a : MatcherT) (lo hi : Nat) : MatcherT :=
  mSeq (mRepExact a lo) (mRepUpTo a (hi - lo))

/-- Unbounded repetition `a{lo,}`, greedy. -/
def mRepAtLeast (a : MatcherT) (lo : Nat) : MatcherT :=
  mSeq (mRepExact a lo) (mStar a)

/-- Word character for `\w` and `\b` (ASCII, as all embedded inputs are). -/
def isWordChar (c : Char) : Bool :=
  c.isAlphanum ∨ c = '_'

def isWordOpt : Option Char → Bool
  | none => false
  | some c => isWordChar c

/-- Word boundary `\b`: zero-width, true when exactly one side is a word
character. -/
def mWordB : MatcherT := fun prev s =>
  if isWordOpt prev ≠ isWordOpt s.head? then [⟨0, none⟩] else []

/-- Negative lookahead over a single character class `(?!c)`. -/
def mNegLookAhead (p : Char → Bool) : MatcherT := fun _ s =>
  match s.head? with
  | none => [⟨0, none⟩]
  | some c => if p c then [] else [⟨0, none⟩]

/-- Negative lookbehind over a single character class `(?<!c)`. -/
def mNegLookBehind (p : Char → Bool) : MatcherT := fun prev _ =>
  match prev with
  | none => [⟨0, none⟩]
  | some c => if p c then [] else [⟨0, none⟩]

/-- Literal character. -/
def mChr (c : Char) : MatcherT := mCls (fun x => x = c)

/-- Literal string. -/
def mLit (l : String) : MatcherT :=
  l.toList.foldr (fun c acc => mSeq (mChr c) acc) mEps

/-- Dot `.` without DOTALL: any character except newline. -/
def mDot : MatcherT := mCls (fun c => c ≠ '\n')

/-- Class `[\s\S]`: truly any character. -/
def mAny : MatcherT := mCls (fun _ => true)

/-- Whitespace for `\s` (Python: space, tab, newline, return, formfeed,
vertical tab). -/
def isSpaceChar (c : Char) : Bool :=
  c = ' ' ∨ c = '\t' ∨ c = '\n' ∨ c = '\r' ∨ c = Char.ofNat 11 ∨ c = Char.ofNat 12

def mSpace : MatcherT := mCls isSpaceChar

def mDigit : MatcherT := mCls Char.isDigit

def mWord : MatcherT := mCls isWordChar

/-! ### Search, findall and sub -/

/-- A match found by a scan: start position, matched length, group-1
capture span (absolute). -/
structure MatchSpan where
  start : Nat
  len : Nat
  cap : Option (Nat × Nat)
deriving DecidableEq, Repr

def firstHit (m : MatcherT) (prev : Option Char) (s : List Char) : Option MRes :=
  (m prev s).head?

/-- Leftmost match, scanning start positions from `pos` upward; `prev` is
the character just before `pos`.  This is `re.search`. -/
def reSearchAux (m : MatcherT) : Nat → (pos : Nat) → Option Char → List Char → Option MatchSpan
  | 0, _, _, _ => none
  | fuel + 1, pos, prev, s =>
      match firstHit m prev s with
      | some r => some ⟨pos, r.len, capShift pos r.cap⟩
      | none =>
          match s with
          | [] => none
          | c :: t => reSearchAux m fuel (pos + 1) (some c) t

def reSearch (m : MatcherT) (s : List Char) : Option MatchSpan :=
  reSearchAux m (s.length + 1) 0 none s

/-- All non-overlapping matches from left to right (`re.findall` /
`re.finditer`): after a non-empty match continue at its end, after an
empty match advance one character. -/
def reFindAllAux (m : MatcherT) : Nat → (pos : Nat) → Option Char → List Char → List MatchSpan
  | 0, _, _, _ => []
  | fuel + 1, pos, prev, s =>
      match firstHit m prev s with
      | some r =>
          if r.len = 0 then
            match s with
            | [] => [⟨pos, 0, capShift pos r.cap⟩]
            | c :: t => ⟨pos, 0, capShift pos r.cap⟩ :: reFindAllAux m fuel (pos + 1) (some c) t
          else
            ⟨pos, r.len, capShift pos r.cap⟩ ::
              reFindAllAux m fuel (pos + r.len) ((s.take r.len).getLast?) (s.drop r.len)
      | none =>
          match s with
          | [] => []
          | c :: t => reFindAllAux m fuel (pos + 1) (some c) t

def reFindAll (m : MatcherT) (s : List Char) : List MatchSpan :=
  reFindAllAux m (2 * s.length + 2) 0 none s

/-- Extract a span from the original (non-lowered) character list. -/
def spanText (orig : List Char) (start len : Nat) : String :=
  String.mk ((orig.drop start).take len)

def capText (orig : List Char) : Option (Nat × Nat) → String
  | none => ""
  | some (a, b) => spanText orig a b

/-- Case-sensitive search over a string. -/
def searchCS (m : MatcherT) (text : String) : Option MatchSpan :=
  reSearch m text.toList

/-- Case-insensitive search: match on the lowered text; spans index into
the original. -/
def searchCI (m : MatcherT) (text : String) : Option MatchSpan :=
  reSearch m (text.toList.map Char.toLower)

def findAllCS (m : MatcherT) (text : String) : List MatchSpan :=
  reFindAll m text.toList

def findAllCI (m : MatcherT) (text : String) : List MatchSpan :=
  reFindAll m (text.toList.map Char.toLower)

/-- Python `re.sub` with a replacement built from the whole match and the group-1
capture: splice replacements over the non-overlapping matches. -/
def reSubSplice (orig : List Char) (repl : String → String → String) :
    Nat → List MatchSpan → String
  | pos, [] => String.mk (orig.drop pos)
  | pos, sp :: rest =>
      String.mk ((orig.drop pos).take (sp.start - pos)) ++
        repl (spanText orig sp.start sp.len) (capText orig sp.cap) ++
        reSubSplice orig repl (sp.start + sp.len) rest

def reSubCS (m : MatcherT) (repl : String → String → String) (text : String) : String :=
  reSubSplice text.toList repl 0 (findAllCS m text)

def reSubCI (m : MatcherT) (repl : String → String → String) (text : String) : String :=
  reSubSplice text.toList repl 0 (findAllCI m text)

/-! ### Data model

Modelled from the spec: the `bandaid.models` package (events.py,
patterns.py) is not among the provided sources; its closed vocabularies
and record shapes are taken from spec section 3 and from the CHECK
constraints in storage/events_db.py.  UUIDs are embedded as natural
numbers and UTC timestamps as natural numbers (seconds); ISO-8601 strings
of one format compare exactly like their instants, so the SQL TEXT
comparisons below are modelled by comparisons on these naturals. -/

inductive ThreatType
  | prompt_injection
  | jailbreak
  | pii
  | financial_secret
  | toxic_content
  | blockchain_address
  | private_key
  | seed_phrase
  | api_key_leak
deriving DecidableEq, Repr

def ThreatType.value : ThreatType → String
  | .prompt_injection => "prompt_injection"
  | .jailbreak => "jailbreak"
  | .pii => "pii"
  | .financial_secret => "financial_secret"
  | .toxic_content => "toxic_content"
  | .blockchain_address => "blockchain_address"
  | .private_key => "private_key"
  | .seed_phrase => "seed_phrase"
  | .api_key_leak => "api_key_leak"

inductive EventType
  | blocked
  | allowed
  | medium_confidence_warning
  | data_leak_alert
deriving DecidableEq, Repr

inductive SeverityLevel
  | critical
  | high
  | medium
  | low
  | info
deriving DecidableEq, Repr

inductive DetectionLayer
  | regex
  | ner
  | guard
  | embedding_match
  | seed_phrase
deriving DecidableEq, Repr

structure ThreatDetection where
  threat_type : ThreatType
  confidence : ℚ
  matched_text : String
deriving DecidableEq, Repr

structure SecurityEvent where
  event_type : EventType
  threat_type : Option ThreatType
  confidence_level : Option ℚ
  request_id : Nat
  redacted_content : String
  severity_level : SeverityLevel
  detection_layer : Option DetectionLayer
  learned_pattern_id : Option Nat
  provider : Option String
  model : Option String
  timestamp : Nat
deriving DecidableEq, Repr

/-- Audit details of one validation layer, embedding the `details` dict of
`ValidationResult` (only the shapes the orchestrator actually builds). -/
inductive VDetails
  | regexMatches (l : List (ThreatType × ℚ × String))
  | nerEntities (l : List (ThreatType × List String))
  | errorDetail (msg : String)
  | guardCats (l : List String)
  | embedInfo (pattern_id : Nat) (similarity : ℚ)
deriving DecidableEq, Repr

structure ValidationResult where
  layer : DetectionLayer
  passed : Bool
  confidence : ℚ
  threats_detected : List ThreatType
  details : VDetails
deriving DecidableEq, Repr

/-! ### Pattern catalog (security/patterns.py)

Each constant below transcribes one compiled regex from patterns.py; the
original pattern is given in the comment.  Patterns flagged (?i) (and the
API-key family, compiled with re.IGNORECASE) are matched through the
case-insensitive entry points. -/

def mFail : MatcherT := fun _ _ => []

def mAlts : List MatcherT → MatcherT
  | [] => mFail
  | [a] => a
  | a :: t => mAlt a (mAlts t)

/- `\s+` -/
def sp1 : MatcherT := mPlus mSpace

/- `(\w+\s+)?` -/
def optWordSp : MatcherT := mOpt (mSeq (mPlus mWord) sp1)

/- a literal with an optional trailing "s", e.g. `instructions?` -/
def sfxS (s : String) : MatcherT := mSeq (mLit s) (mOpt (mLit ("s")))

/- `(?i)ignore\s+(\w+\s+)?(previous|prior|above)\s+(instructions?|commands?|rules?|prompts?)` -/
def inj01 : MatcherT :=
  mSeq (mLit ("ignore")) (mSeq sp1 (mSeq optWordSp
    (mSeq (mAlts [mLit ("previous"), mLit ("prior"), mLit ("above")])
      (mSeq sp1 (mAlts [sfxS ("instruction"), sfxS ("command"), sfxS ("rule"), sfxS ("prompt")])))))

/- `(?i)disregard\s+(\w+\s+)?(previous|prior|above)\s+(instructions?|commands?|rules?)` -/
def inj02 : MatcherT :=
  mSeq (mLit ("disregard")) (mSeq sp1 (mSeq optWordSp
    (mSeq (mAlts [mLit ("previous"), mLit ("prior"), mLit ("above")])
      (mSeq sp1 (mAlts [sfxS ("instruction"), sfxS ("command"), sfxS ("rule")])))))

/- `(?i)forget\s+(\w+\s+)?(previous|prior|above)\s+(instructions?|commands?|rules?)` -/
def inj03 : MatcherT :=
  mSeq (mLit ("forget")) (mSeq sp1 (mSeq optWordSp
    (mSeq (mAlts [mLit ("previous"), mLit ("prior"), mLit ("above")])
      (mSeq sp1 (mAlts [sfxS ("instruction"), sfxS ("command"), sfxS ("rule")])))))

/- `(?i)override\s+(\w+\s+)?(previous|prior|system)\s+(instructions?|commands?|settings?)` -/
def inj04 : MatcherT :=
  mSeq (mLit ("override")) (mSeq sp1 (mSeq optWordSp
    (mSeq (mAlts [mLit ("previous"), mLit ("prior"), mLit ("system")])
      (mSeq sp1 (mAlts [sfxS ("instruction"), sfxS ("command"), sfxS ("setting")])))))

/- `(?i)(show|reveal|display|print|output)(\s+me)?\s+(your|the)\s+(\w+\s+)?(system\s+)?(prompt|instructions?|rules?)` -/
def inj05 : MatcherT :=
  mSeq (mAlts [mLit ("show"), mLit ("reveal"), mLit ("display"), mLit ("print"), mLit ("output")])
    (mSeq (mOpt (mSeq sp1 (mLit ("me"))))
      (mSeq sp1 (mSeq (mAlts [mLit ("your"), mLit ("the")])
        (mSeq sp1 (mSeq optWordSp (mSeq (mOpt (mSeq (mLit ("system")) sp1))
          (mAlts [mLit ("prompt"), sfxS ("instruction"), sfxS ("rule")])))))))

/- `(?i)tell\s+me\s+(your|the)\s+(\w+\s+)?(system\s+)?(prompt|instructions?|rules?)` -/
def inj06 : MatcherT :=
  mSeq (mLit ("tell")) (mSeq sp1 (mSeq (mLit ("me"))
    (mSeq sp1 (mSeq (mAlts [mLit ("your"), mLit ("the")])
      (mSeq sp1 (mSeq optWordSp (mSeq (mOpt (mSeq (mLit ("system")) sp1))
        (mAlts [mLit ("prompt"), sfxS ("instruction"), sfxS ("rule")]))))))))

/- `(?i)what\s+(are|is)\s+your\s+(system\s+)?(prompt|instructions?|rules?)` -/
def inj07 : MatcherT :=
  mSeq (mLit ("what")) (mSeq sp1 (mSeq (mAlts [mLit ("are"), mLit ("is")])
    (mSeq sp1 (mSeq (mLit ("your"))
      (mSeq sp1 (mSeq (mOpt (mSeq (mLit ("system")) sp1))
        (mAlts [mLit ("prompt"), sfxS ("instruction"), sfxS ("rule")])))))))

/- `(?i)repeat\s+(your|the)\s+(system\s+)?(prompt|instructions?)` -/
def inj08 : MatcherT :=
  mSeq (mLit ("repeat")) (mSeq sp1 (mSeq (mAlts [mLit ("your"), mLit ("the")])
    (mSeq sp1 (mSeq (mOpt (mSeq (mLit ("system")) sp1))
      (mAlts [mLit ("prompt"), sfxS ("instruction")])))))

/- `(?i)repeat\s+the\s+(text|content|instructions?)\s+(above|before)` -/
def inj09 : MatcherT :=
  mSeq (mLit ("repeat")) (mSeq sp1 (mSeq (mLit ("the"))
    (mSeq sp1 (mSeq (mAlts [mLit ("text"), mLit ("content"), sfxS ("instruction")])
      (mSeq sp1 (mAlts [mLit ("above"), mLit ("before")]))))))

/- `(?i)you\s+are\s+(now\s+)?(a|an|the)` -/
def inj10 : MatcherT :=
  mSeq (mLit ("you")) (mSeq sp1 (mSeq (mLit ("are"))
    (mSeq sp1 (mSeq (mOpt (mSeq (mLit ("now")) sp1))
      (mAlts [mLit ("a"), mLit ("an"), mLit ("the")])))))

/- `(?i)act\s+as\s+(a|an|the|if)` -/
def inj11 : MatcherT :=
  mSeq (mLit ("act")) (mSeq sp1 (mSeq (mLit ("as"))
    (mSeq sp1 (mAlts [mLit ("a"), mLit ("an"), mLit ("the"), mLit ("if")]))))

/- `(?i)pretend\s+(you|to)\s+(are|be|have)` -/
def inj12 : MatcherT :=
  mSeq (mLit ("pretend")) (mSeq sp1 (mSeq (mAlts [mLit ("you"), mLit ("to")])
    (mSeq sp1 (mAlts [mLit ("are"), mLit ("be"), mLit ("have")]))))

/- `(?i)pretend\s+that\s+you` -/
def inj13 : MatcherT :=
  mSeq (mLit ("pretend")) (mSeq sp1 (mSeq (mLit ("that")) (mSeq sp1 (mLit ("you")))))

/- `(?i)roleplay\s+as` -/
def inj14 : MatcherT :=
  mSeq (mLit ("roleplay")) (mSeq sp1 (mLit ("as")))

/- `(?i)simulate\s+(a|an|being)` -/
def inj15 : MatcherT :=
  mSeq (mLit ("simulate")) (mSeq sp1 (mAlts [mLit ("a"), mLit ("an"), mLit ("being")]))

/- `(?i)(DAN|do\s+anything\s+now)` -/
def inj16 : MatcherT :=
  mAlt (mLit ("dan")) (mSeq (mLit ("do")) (mSeq sp1 (mSeq (mLit ("anything")) (mSeq sp1 (mLit ("now"))))))

/- `(?i)you\s+(have|can)\s+break(en)?\s+(free|out)` -/
def inj17 : MatcherT :=
  mSeq (mLit ("you")) (mSeq sp1 (mSeq (mAlts [mLit ("have"), mLit ("can")])
    (mSeq sp1 (mSeq (mLit ("break")) (mSeq (mOpt (mLit ("en")))
      (mSeq sp1 (mAlts [mLit ("free"), mLit ("out")])))))))

/- `(?i)no\s+longer\s+(have|bound\s+by)\s+(rules|restrictions|limitations)` -/
def inj18 : MatcherT :=
  mSeq (mLit ("no")) (mSeq sp1 (mSeq (mLit ("longer"))
    (mSeq sp1 (mSeq (mAlt (mLit ("have")) (mSeq (mLit ("bound")) (mSeq sp1 (mLit ("by")))))
      (mSeq sp1 (mAlts [mLit ("rules"), mLit ("restrictions"), mLit ("limitations")]))))))

/- `(?i)(enable|activate|enter|switch\s+to)\s+(developer|debug|admin|god)\s+mode` -/
def inj19 : MatcherT :=
  mSeq (mAlts [mLit ("enable"), mLit ("activate"), mLit ("enter"),
      mSeq (mLit ("switch")) (mSeq sp1 (mLit ("to")))])
    (mSeq sp1 (mSeq (mAlts [mLit ("developer"), mLit ("debug"), mLit ("admin"), mLit ("god")])
      (mSeq sp1 (mLit ("mode")))))

/- `(?i)developer\s+mode\s+enabled` -/
def inj20 : MatcherT :=
  mSeq (mLit ("developer")) (mSeq sp1 (mSeq (mLit ("mode")) (mSeq sp1 (mLit ("enabled")))))

/- `(?i)(base64|hex|rot13|encode|decode).*ignore` -/
def inj21 : MatcherT :=
  mSeq (mAlts [mLit ("base64"), mLit ("hex"), mLit ("rot13"), mLit ("encode"), mLit ("decode")])
    (mSeq (mStar mDot) (mLit ("ignore")))

/- `(?i)(base64|hex|rot13).*previous.*instructions?` -/
def inj22 : MatcherT :=
  mSeq (mAlts [mLit ("base64"), mLit ("hex"), mLit ("rot13")])
    (mSeq (mStar mDot) (mSeq (mLit ("previous")) (mSeq (mStar mDot) (sfxS ("instruction")))))

/- PROMPT_INJECTION_PATTERNS, in source order. -/
def PROMPT_INJECTION_PATTERNS : List MatcherT :=
  [inj01, inj02, inj03, inj04, inj05, inj06, inj07, inj08, inj09, inj10, inj11,
   inj12, inj13, inj14, inj15, inj16, inj17, inj18, inj19, inj20, inj21, inj22]

/- character classes used by the money patterns -/
def isHexChar (c : Char) : Bool :=
  c.isDigit ∨ ('a' ≤ c ∧ c ≤ 'f') ∨ ('A' ≤ c ∧ c ≤ 'F')

/- `[a-km-zA-HJ-NP-Z1-9]` (base58) -/
def isBase58Body (c : Char) : Bool :=
  ('a' ≤ c ∧ c ≤ 'k') ∨ ('m' ≤ c ∧ c ≤ 'z') ∨ ('A' ≤ c ∧ c ≤ 'H') ∨
  ('J' ≤ c ∧ c ≤ 'N') ∨ ('P' ≤ c ∧ c ≤ 'Z') ∨ ('1' ≤ c ∧ c ≤ '9')

/- `[1-9A-HJ-NP-Za-km-z]` (base58, WIF body) -/
def isBase58Wif (c : Char) : Bool :=
  ('1' ≤ c ∧ c ≤ '9') ∨ ('A' ≤ c ∧ c ≤ 'H') ∨ ('J' ≤ c ∧ c ≤ 'N') ∨
  ('P' ≤ c ∧ c ≤ 'Z') ∨ ('a' ≤ c ∧ c ≤ 'k') ∨ ('m' ≤ c ∧ c ≤ 'z')

/- `ETHEREUM_ADDRESS_PATTERN = \b0x[a-fA-F0-9]{40}\b` (case-sensitive) -/
def ETHEREUM_ADDRESS_PATTERN : MatcherT :=
  mSeq mWordB (mSeq (mLit ("0x")) (mSeq (mRepExact (mCls isHexChar) 40) mWordB))

/- `BITCOIN_LEGACY_PATTERN = \b[13][a-km-zA-HJ-NP-Z1-9]{25,34}\b` -/
def BITCOIN_LEGACY_PATTERN : MatcherT :=
  mSeq mWordB (mSeq (mCls (fun c => c = '1' ∨ c = '3'))
    (mSeq (mRepRange (mCls isBase58Body) 25 34) mWordB))

/- `BITCOIN_SEGWIT_PATTERN = \bbc1[a-z0-9]{39,59}\b` -/
def BITCOIN_SEGWIT_PATTERN : MatcherT :=
  mSeq mWordB (mSeq (mLit ("bc1"))
    (mSeq (mRepRange (mCls (fun c => ('a' ≤ c ∧ c ≤ 'z') ∨ c.isDigit)) 39 59) mWordB))

/- `ETHEREUM_PRIVATE_KEY_PATTERN = \b(0x)?[a-fA-F0-9]{64}\b`
   (one capturing group, so findall yields the `(0x)` capture) -/
def ETHEREUM_PRIVATE_KEY_PATTERN : MatcherT :=
  mSeq mWordB (mSeq (mOpt (mGrp (mLit ("0x"))))
    (mSeq (mRepExact (mCls isHexChar) 64) mWordB))

/- `BITCOIN_WIF_PATTERN = \b[5KL][1-9A-HJ-NP-Za-km-z]{50,51}\b` -/
def BITCOIN_WIF_PATTERN : MatcherT :=
  mSeq mWordB (mSeq (mCls (fun c => c = '5' ∨ c = 'K' ∨ c = 'L'))
    (mSeq (mRepRange (mCls isBase58Wif) 50 51) mWordB))

/- `[_\s]?` -/
def optUsSp : MatcherT := mOpt (mCls (fun c => c = '_' ∨ isSpaceChar c))

/- `[\s:=]+` -/
def sepSp : MatcherT := mPlus (mCls (fun c => isSpaceChar c ∨ c = ':' ∨ c = '='))

/- `CONTEXTUAL_PRIVATE_KEY_PATTERN =
   (?i)(private[_\s]?key|secret[_\s]?key|priv[_\s]?key|wallet[_\s]?key)[\s:=]+[a-fA-F0-9]{64}\b` -/
def CONTEXTUAL_PRIVATE_KEY_PATTERN : MatcherT :=
  mSeq (mGrp (mAlts
      [mSeq (mLit ("private")) (mSeq optUsSp (mLit ("key"))),
       mSeq (mLit ("secret")) (mSeq optUsSp (mLit ("key"))),
       mSeq (mLit ("priv")) (mSeq optUsSp (mLit ("key"))),
       mSeq (mLit ("wallet")) (mSeq optUsSp (mLit ("key")))]))
    (mSeq sepSp (mSeq (mRepExact (mCls isHexChar) 64) mWordB))

/- `PEM_PRIVATE_KEY_PATTERN = -----BEGIN (?:RSA |EC |OPENSSH )?PRIVATE KEY-----`
   `[\s\S]*?` `-----END (?:RSA |EC |OPENSSH )?PRIVATE KEY-----` (case-sensitive) -/
def pemKind : MatcherT :=
  mOpt (mAlts [mLit ("RSA "), mLit ("EC "), mLit ("OPENSSH ")])

def PEM_PRIVATE_KEY_PATTERN : MatcherT :=
  mSeq (mLit ("-----BEGIN ")) (mSeq pemKind (mSeq (mLit ("PRIVATE KEY-----"))
    (mSeq (mStarLazy mAny) (mSeq (mLit ("-----END "))
      (mSeq pemKind (mLit ("PRIVATE KEY-----")))))))

/- quote characters for `['\"]?` written by code point to keep the source
   free of quote literals -/
def isQuoteChar (c : Char) : Bool :=
  c = Char.ofNat 39 ∨ c = Char.ofNat 34

/- API_KEY_PATTERNS (all compiled with re.IGNORECASE); `grouped` records
   whether the pattern has a capturing group, in which case findall
   returns the group-1 capture instead of the whole match. -/
structure ApiPattern where
  m : MatcherT
  grouped : Bool

/- `(?i)\b(sk|pk)[-_][\w\-]{15,100}\b` -/
def apiPat1 : ApiPattern :=
  ⟨mSeq mWordB (mSeq (mGrp (mAlt (mLit ("sk")) (mLit ("pk"))))
    (mSeq (mCls (fun c => c = '-' ∨ c = '_'))
      (mSeq (mRepRange (mCls (fun c => isWordChar c ∨ c = '-')) 15 100) mWordB))), true⟩

/- `(?i)(\w+_)?api[_-]?key[\s:=]+['\"]?[a-zA-Z0-9/+=\-_]{15,}\b` -/
def apiPat2 : ApiPattern :=
  ⟨mSeq (mOpt (mGrp (mSeq (mPlus mWord) (mChr '_'))))
    (mSeq (mLit ("api")) (mSeq (mOpt (mCls (fun c => c = '_' ∨ c = '-')))
      (mSeq (mLit ("key")) (mSeq sepSp (mSeq (mOpt (mCls isQuoteChar))
        (mSeq (mRepAtLeast (mCls (fun c =>
          c.isAlphanum ∨ c = '/' ∨ c = '+' ∨ c = '=' ∨ c = '-' ∨ c = '_')) 15) mWordB)))))), true⟩

/- `(?i)(aws|amazon)[_\s]?secret[_\s]?access[_\s]?key[\s:=]+['\"]?[a-zA-Z0-9/+=]{20,}\b` -/
def apiPat3 : ApiPattern :=
  ⟨mSeq (mGrp (mAlt (mLit ("aws")) (mLit ("amazon"))))
    (mSeq optUsSp (mSeq (mLit ("secret")) (mSeq optUsSp (mSeq (mLit ("access"))
      (mSeq optUsSp (mSeq (mLit ("key")) (mSeq sepSp (mSeq (mOpt (mCls isQuoteChar))
        (mSeq (mRepAtLeast (mCls (fun c =>
          c.isAlphanum ∨ c = '/' ∨ c = '+' ∨ c = '=')) 20) mWordB))))))))), true⟩

/- `\bAIza[a-zA-Z0-9\-_]{35,}\b` (IGNORECASE via compile flag) -/
def apiPat4 : ApiPattern :=
  ⟨mSeq mWordB (mSeq (mLit ("aiza"))
    (mSeq (mRepAtLeast (mCls (fun c => c.isAlphanum ∨ c = '-' ∨ c = '_')) 35) mWordB)), false⟩

/- `\b[a-zA-Z0-9]{40,}\b` -/
def apiPat5 : ApiPattern :=
  ⟨mSeq mWordB (mSeq (mRepAtLeast (mCls Char.isAlphanum) 40) mWordB), false⟩

def API_KEY_PATTERNS : List ApiPattern :=
  [apiPat1, apiPat2, apiPat3, apiPat4, apiPat5]

/-! ### PatternDetector (security/patterns.py)

The only mutable state of the Python class is the BIP39 wordset loaded at
construction (`None` when the file is missing; note that Python treats an
empty set as false in `if not self.bip39_wordset`). -/

structure PatternDetector where
  bip39_wordset : Option (List String)

/-- The `match.group()` of each prompt-injection pattern that matches, in
pattern order (the loop body of `detect_prompt_injection`). -/
def matchedInjectionPatterns (text : String) : List String :=
  PROMPT_INJECTION_PATTERNS.filterMap fun m =>
    (searchCI m text).map fun sp => spanText text.toList sp.start sp.len

def PatternDetector.detect_prompt_injection (_d : PatternDetector) (text : String) :
    List ThreatDetection :=
  match matchedInjectionPatterns text with
  | [] => []
  | m :: ms =>
      [⟨.prompt_injection,
        min (19/20 : ℚ) (4/5 + ((m :: ms).length : ℚ) * (1/20)), m⟩]

def PatternDetector.detect_blockchain_address (_d : PatternDetector) (text : String) :
    List ThreatDetection :=
  [ETHEREUM_ADDRESS_PATTERN, BITCOIN_LEGACY_PATTERN, BITCOIN_SEGWIT_PATTERN].flatMap fun pat =>
    (findAllCS pat text).map fun sp =>
      ⟨.blockchain_address, 19/20, spanText text.toList sp.start sp.len⟩

/- `(?i)(private|secret|wallet|priv)[\s_]?key` (the context check inside
the WIF loop) -/
def privKeyContextRe : MatcherT :=
  mSeq (mGrp (mAlts [mLit ("private"), mLit ("secret"), mLit ("wallet"), mLit ("priv")]))
    (mSeq optUsSp (mLit ("key")))

def PatternDetector.detect_private_key (_d : PatternDetector) (text : String) :
    List ThreatDetection :=
  let pem := (findAllCS PEM_PRIVATE_KEY_PATTERN text).map fun sp =>
    (⟨.private_key, 99/100, spanText text.toList sp.start sp.len⟩ : ThreatDetection)
  let ctx := (findAllCI CONTEXTUAL_PRIVATE_KEY_PATTERN text).map fun sp =>
    (⟨.private_key, 98/100, capText text.toList sp.cap⟩ : ThreatDetection)
  let eth := (findAllCS ETHEREUM_PRIVATE_KEY_PATTERN text).map fun sp =>
    (⟨.private_key, 85/100, capText text.toList sp.cap⟩ : ThreatDetection)
  let wif := (findAllCS BITCOIN_WIF_PATTERN text).map fun sp =>
    (⟨.private_key,
      if (searchCI privKeyContextRe text).isSome then 19/20 else 7/10,
      spanText text.toList sp.start sp.len⟩ : ThreatDetection)
  pem ++ ctx ++ eth ++ wif

/-- What `findall` returns for one API pattern: the group-1 capture when
the pattern has a capturing group, the whole match otherwise. -/
def apiFindAllStrings (p : ApiPattern) (text : String) : List String :=
  (findAllCI p.m text).map fun sp =>
    if p.grouped then capText text.toList sp.cap else spanText text.toList sp.start sp.len

def API_CONTEXT_KEYWORDS : List String :=
  ["api_key", "apikey", "api-key", "token", "secret", "auth"]

def PatternDetector.detect_api_key (_d : PatternDetector) (text : String) :
    List ThreatDetection :=
  match API_KEY_PATTERNS.flatMap (fun p => apiFindAllStrings p text) with
  | [] => []
  | m :: _ =>
      let has_context := API_CONTEXT_KEYWORDS.any fun kw => strContains (strLower text) kw
      [⟨.api_key_leak, if has_context then 9/10 else 3/5, m⟩]

def PatternDetector.detect_seed_phrase (d : PatternDetector) (text : String) :
    List ThreatDetection :=
  match d.bip39_wordset with
  | none => []
  | some ws =>
      if ws.isEmpty then []
      else
        let words := pySplit (strLower text)
        [12, 18, 24].flatMap fun pl =>
          (List.range (words.length + 1 - pl)).filterMap fun i =>
            let candidate := (words.drop i).take pl
            let bip39_matches := (candidate.filter fun w => ws.contains w).length
            if bip39_matches ≥ pl then
              some ⟨.seed_phrase, 98/100, String.intercalate (" ") candidate⟩
            else if bip39_matches ≥ pl - 2 then
              some ⟨.seed_phrase, 3/4, String.intercalate (" ") candidate⟩
            else none

def PatternDetector.detect_all (d : PatternDetector) (text : String) :
    List ThreatDetection :=
  let all_detections :=
    d.detect_prompt_injection text ++ d.detect_blockchain_address text ++
    d.detect_private_key text ++ d.detect_api_key text ++ d.detect_seed_phrase text
  pySortBy (fun a b => decide (b.confidence ≤ a.confidence)) all_detections

/-! ### Redaction (security/redactor.py) -/

/- Python `str.islower` / `str.isalpha` over the ASCII inputs used here. -/
def pyIsLower (s : String) : Bool :=
  s.toList.any (fun c => c.isLower) && !(s.toList.any fun c => c.isUpper)

def pyIsAlpha (s : String) : Bool :=
  !s.isEmpty && s.toList.all (fun c => c.isAlpha)

/- `\b[A-Za-z0-9._%+-]+@[A-Za-z0-9.-]+\.[A-Z|a-z]{2,}\b` (note the literal
pipe inside the last class, transcribed as written) -/
def emailRe : MatcherT :=
  mSeq mWordB (mSeq (mPlus (mCls (fun c =>
      c.isAlphanum ∨ c = '.' ∨ c = '_' ∨ c = '%' ∨ c = '+' ∨ c = '-')))
    (mSeq (mChr '@') (mSeq (mPlus (mCls (fun c => c.isAlphanum ∨ c = '.' ∨ c = '-')))
      (mSeq (mChr '.') (mSeq (mRepAtLeast (mCls (fun c => c.isAlpha ∨ c = '|')) 2) mWordB)))))

def redact_email (text : String) : String :=
  if text.isEmpty then text
  else reSubCS emailRe (fun _ _ => "***EMAIL_REDACTED***") text

/- `(?<!\d)\d{3}[-.]?\d{3}[-.]?\d{4}(?!\d)` -/
def dashDot : MatcherT := mOpt (mCls (fun c => c = '-' ∨ c = '.'))

def phoneRe1 : MatcherT :=
  mSeq (mNegLookBehind Char.isDigit) (mSeq (mRepExact mDigit 3) (mSeq dashDot
    (mSeq (mRepExact mDigit 3) (mSeq dashDot
      (mSeq (mRepExact mDigit 4) (mNegLookAhead Char.isDigit))))))

/- `\(\d{3}\)\s*\d{3}[-.]?\d{4}` -/
def phoneRe2 : MatcherT :=
  mSeq (mChr '(') (mSeq (mRepExact mDigit 3) (mSeq (mChr ')') (mSeq (mStar mSpace)
    (mSeq (mRepExact mDigit 3) (mSeq dashDot (mRepExact mDigit 4))))))

/- `\+\d{1,3}\s?\d{1,14}\b` -/
def phoneRe3 : MatcherT :=
  mSeq (mChr '+') (mSeq (mRepRange mDigit 1 3) (mSeq (mOpt mSpace)
    (mSeq (mRepRange mDigit 1 14) mWordB)))

def redact_phone (text : String) : String :=
  if text.isEmpty then text
  else
    [phoneRe1, phoneRe2, phoneRe3].foldl
      (fun result pat => reSubCS pat (fun _ _ => "***PHONE_REDACTED***") result) text

/- `(?<!\d)\d{3}[-\s]\d{2}[-\s]\d{4}(?!\d)` -/
def dashSp : MatcherT := mCls (fun c => c = '-' ∨ isSpaceChar c)

def ssnRe : MatcherT :=
  mSeq (mNegLookBehind Char.isDigit) (mSeq (mRepExact mDigit 3) (mSeq dashSp
    (mSeq (mRepExact mDigit 2) (mSeq dashSp
      (mSeq (mRepExact mDigit 4) (mNegLookAhead Char.isDigit))))))

def redact_ssn (text : String) : String :=
  if text.isEmpty then text
  else reSubCS ssnRe (fun _ _ => "***SSN_REDACTED***") text

/- `\b\d{4}[\s-]?\d{4}[\s-]?\d{4}[\s-]?\d{4}\b` -/
def ccRe : MatcherT :=
  mSeq mWordB (mSeq (mRepExact mDigit 4) (mSeq (mOpt dashSp)
    (mSeq (mRepExact mDigit 4) (mSeq (mOpt dashSp)
      (mSeq (mRepExact mDigit 4) (mSeq (mOpt dashSp)
        (mSeq (mRepExact mDigit 4) mWordB)))))))

def redact_credit_card (text : String) : String :=
  if text.isEmpty then text
  else reSubCS ccRe (fun _ _ => "***CC_REDACTED***") text

/- street pattern of `redact_address`, substituted with re.IGNORECASE so
the `[A-Z]`/`[a-z]` classes both match any letter; matched on the lowered
text accordingly:
`\b\d+\s+[A-Z][a-z]+(\s+[A-Z][a-z]+)*\s+(St|Street|Ave|Avenue|Rd|Road|Blvd|Boulevard|Dr|Drive|Ln|Lane|Ct|Court|Way|Pl|Place|Pkwy|Parkway)(\.?)(\s+(Apt|Suite|Unit|#)\s*[A-Za-z0-9]+)?\b` -/
def capWord : MatcherT := mSeq (mCls Char.isAlpha) (mPlus (mCls Char.isAlpha))

def streetRe : MatcherT :=
  mSeq mWordB (mSeq (mPlus mDigit) (mSeq sp1 (mSeq capWord
    (mSeq (mStar (mSeq sp1 capWord)) (mSeq sp1
      (mSeq (mAlts [mLit ("st"), mLit ("street"), mLit ("ave"), mLit ("avenue"),
          mLit ("rd"), mLit ("road"), mLit ("blvd"), mLit ("boulevard"), mLit ("dr"),
          mLit ("drive"), mLit ("ln"), mLit ("lane"), mLit ("ct"), mLit ("court"),
          mLit ("way"), mLit ("pl"), mLit ("place"), mLit ("pkwy"), mLit ("parkway")])
        (mSeq (mOpt (mChr '.'))
          (mSeq (mOpt (mSeq sp1 (mSeq (mAlts [mLit ("apt"), mLit ("suite"),
              mLit ("unit"), mLit ("#")]) (mSeq (mStar mSpace) (mPlus (mCls Char.isAlphanum))))))
            mWordB))))))))

/- `\b\d{5}(-\d{4})?\b` -/
def zipRe : MatcherT :=
  mSeq mWordB (mSeq (mRepExact mDigit 5)
    (mSeq (mOpt (mSeq (mChr '-') (mRepExact mDigit 4))) mWordB))

def redact_address (text : String) : String :=
  if text.isEmpty then text
  else
    let t1 := reSubCI streetRe (fun _ _ => "***ADDRESS_REDACTED***") text
    reSubCS zipRe (fun _ _ => "***ZIP_REDACTED***") t1

def redact_blockchain_address (text : String) : String :=
  if text.isEmpty then text
  else
    let t1 := reSubCS ETHEREUM_ADDRESS_PATTERN (fun _ _ => "[ETH_ADDRESS_REDACTED]") text
    let t2 := reSubCS BITCOIN_LEGACY_PATTERN (fun _ _ => "[BTC_ADDRESS_REDACTED]") t1
    reSubCS BITCOIN_SEGWIT_PATTERN (fun _ _ => "[BTC_ADDRESS_REDACTED]") t2

def redact_private_key (text : String) : String :=
  if text.isEmpty then text
  else
    let t1 := reSubCS ETHEREUM_PRIVATE_KEY_PATTERN (fun _ _ => "[PRIVATE_KEY_REDACTED]") text
    let t2 := reSubCS BITCOIN_WIF_PATTERN (fun _ _ => "[PRIVATE_KEY_REDACTED]") t1
    reSubCI CONTEXTUAL_PRIVATE_KEY_PATTERN
      (fun _ cap => cap ++ ": [PRIVATE_KEY_REDACTED]") t2

/- `\b(sk|pk)[-_][a-zA-Z0-9\-]{15,}\b` (no IGNORECASE here, unlike the
detection pattern, and the body class has no underscore) -/
def apiKeyRedactRe1 : MatcherT :=
  mSeq mWordB (mSeq (mGrp (mAlt (mLit ("sk")) (mLit ("pk"))))
    (mSeq (mCls (fun c => c = '-' ∨ c = '_'))
      (mSeq (mRepAtLeast (mCls (fun c => c.isAlphanum ∨ c = '-')) 15) mWordB)))

/- `(?i)api[_-]?key[\s:=]+['\"]?[a-zA-Z0-9]{20,}` -/
def apiKeyRedactRe2 : MatcherT :=
  mSeq (mLit ("api")) (mSeq (mOpt (mCls (fun c => c = '_' ∨ c = '-')))
    (mSeq (mLit ("key")) (mSeq sepSp (mSeq (mOpt (mCls isQuoteChar))
      (mRepAtLeast (mCls Char.isAlphanum) 20)))))

def redact_api_key (text : String) : String :=
  if text.isEmpty then text
  else
    let t1 := reSubCS apiKeyRedactRe1 (fun _ _ => "[API_KEY_REDACTED]") text
    reSubCI apiKeyRedactRe2 (fun _ _ => "api_key=[API_KEY_REDACTED]") t1

/-- The candidate-window pass shared by both branches of
`redact_seed_phrase`: the word list is computed once from the original
text, while replacement mutates the running text. -/
def seedRedactPass (cond : String → Bool) (words : List String) (text0 : String) : String :=
  [12, 18, 24].foldl
    (fun text pl =>
      (List.range (words.length + 1 - pl)).foldl
        (fun text i =>
          let candidate := (words.drop i).take pl
          if candidate.all cond then
            replaceFirst text (String.intercalate (" ") candidate)
              (String.intercalate (" ") (List.replicate pl ("[SEED_WORD_REDACTED]")))
          else text)
        text)
    text0

def redact_seed_phrase (text : String) (bip39_wordlist : Option (List String)) : String :=
  if text.isEmpty then text
  else
    let words := pySplit text
    match bip39_wordlist with
    | some wl =>
        if wl.isEmpty then
          seedRedactPass
            (fun w => pyIsLower w && pyIsAlpha w && 3 ≤ w.length && w.length ≤ 8) words text
        else
          seedRedactPass (fun w => pyIsLower w && wl.contains w) words text
    | none =>
        seedRedactPass
          (fun w => pyIsLower w && pyIsAlpha w && 3 ≤ w.length && w.length ≤ 8) words text

def redact_pii (text : String) : String :=
  if text.isEmpty then text
  else redact_address (redact_credit_card (redact_ssn (redact_phone (redact_email text))))

def redact_secrets (text : String) : String :=
  if text.isEmpty then text
  else redact_seed_phrase (redact_api_key (redact_private_key (redact_blockchain_address text))) none

def redact_all (text : String) : String :=
  if text.isEmpty then text
  else redact_secrets (redact_pii text)

/-- Function `redact_by_threat_type` for the dict form used by the orchestrator
(the single-ThreatType overload wraps into a one-entry dict). -/
def redact_by_threat_type (text : String) (threats : List (ThreatType × List String)) : String :=
  if text.isEmpty then text
  else
    threats.foldl
      (fun text kv =>
        match kv.1 with
        | .pii => redact_pii text
        | .blockchain_address => redact_blockchain_address text
        | .private_key => redact_private_key text
        | .api_key_leak => redact_api_key text
        | .seed_phrase => redact_seed_phrase text none
        | .financial_secret => redact_secrets text
        | _ => text)
      text

/-! ### Confidence thresholds (security/confidence.py) -/

inductive ConfidenceLevel
  | high
  | medium
  | low
  | noConfidence
deriving DecidableEq, Repr

/- `Action` in the source; renamed since Mathlib already declares `Action`. -/
inductive SecAction
  | block
  | validate_further
  | log_only
  | allow
deriving DecidableEq, Repr

structure ConfidenceThresholdManager where
  high_threshold : ℚ
  medium_threshold : ℚ
  low_threshold : ℚ
deriving DecidableEq, Repr

/-- The `__init__` validation: each threshold in [0,1] and
high > medium > low (a ValueError is raised otherwise). -/
def ConfidenceThresholdManager.valid (m : ConfidenceThresholdManager) : Prop :=
  0 ≤ m.high_threshold ∧ m.high_threshold ≤ 1 ∧
  0 ≤ m.medium_threshold ∧ m.medium_threshold ≤ 1 ∧
  0 ≤ m.low_threshold ∧ m.low_threshold ≤ 1 ∧
  m.medium_threshold < m.high_threshold ∧ m.low_threshold < m.medium_threshold

instance (m : ConfidenceThresholdManager) : Decidable m.valid := by
  unfold ConfidenceThresholdManager.valid; infer_instance

def ConfidenceThresholdManager.get_confidence_level
    (m : ConfidenceThresholdManager) (confidence : ℚ) : ConfidenceLevel :=
  if confidence ≥ m.high_threshold then .high
  else if confidence ≥ m.medium_threshold then .medium
  else .low

/-- Method `get_action`; in Python `guard_enabled` defaults to `True`. -/
def ConfidenceThresholdManager.get_action
    (m : ConfidenceThresholdManager) (confidence : ℚ) (guard_enabled : Bool) : SecAction :=
  match m.get_confidence_level confidence with
  | .high => .block
  | .medium => if guard_enabled then .validate_further else .block
  | .low => .allow
  | .noConfidence => .allow

def criticalThreats : List ThreatType :=
  [.private_key, .seed_phrase, .financial_secret, .prompt_injection]

def highSeverityThreats : List ThreatType :=
  [.api_key_leak, .blockchain_address]

def ConfidenceThresholdManager.get_severity
    (m : ConfidenceThresholdManager) (confidence : ℚ) (threat_type : ThreatType) : SeverityLevel :=
  match m.get_confidence_level confidence with
  | .high =>
      if criticalThreats.contains threat_type then .critical
      else if highSeverityThreats.contains threat_type then .high
      else .medium
  | .medium =>
      if criticalThreats.contains threat_type ∨ highSeverityThreats.contains threat_type then .high
      else .medium
  | _ =>
      if confidence ≥ m.low_threshold then .medium else .low

/-- Method `should_block`; the Python `guard_result` is `"unsafe"`/`"safe"`/bool/
None and the truthy branch is `guard_result == "unsafe" or guard_result is
True`, embedded as `some true`.  `guard_enabled` defaults to `True` in
Python and the orchestrator's call site does not override it. -/
def ConfidenceThresholdManager.should_block
    (m : ConfidenceThresholdManager) (confidence : ℚ) (guard_result : Option Bool)
    (guard_enabled : Bool) : Bool :=
  let action := m.get_action confidence guard_enabled
  if action = .block then true
  else if action = .validate_further ∧ guard_result = some true then true
  else false

/-! ### NER validator (security/ner_validator.py) -/

inductive PyError
  | attributeError (msg : String)
  | runtimeError (msg : String)
  | valueError (msg : String)
deriving DecidableEq, Repr

def PyError.str : PyError → String
  | .attributeError m => m
  | .runtimeError m => m
  | .valueError m => m

def itemsAttrMsg : String := "list object has no attribute items"

/-- Python attribute lookup `.items()` on the *list* returned by
`PatternDetector.detect_all`: lists have no such attribute, so this always
raises AttributeError (ner_validator.py line 124). -/
def listItems (_l : List ThreatDetection) :
    Except PyError (List (ThreatType × ℚ × List String)) :=
  .error (.attributeError itemsAttrMsg)

/-- An aggregated entity produced by the HuggingFace NER pipeline (an
external model, supplied as data). -/
structure NerEntity where
  score : ℚ
  entity_group : String
  word : String
deriving DecidableEq, Repr

def entityMapping (g : String) : Option (ThreatType × String) :=
  if g = "PER" then some (.pii, "person")
  else if g = "ORG" then some (.pii, "organization")
  else if g = "LOC" then some (.pii, "location")
  else none

/-- Python `threats_detected[t].append(xs)` on the insertion-ordered dict. -/
def addThreatEntry (l : List (ThreatType × List String)) (t : ThreatType) (strs : List String) :
    List (ThreatType × List String) :=
  if (l.map Prod.fst).contains t then
    l.map fun kv => if kv.1 = t then (kv.1, kv.2 ++ strs) else kv
  else l ++ [(t, strs)]

/-- Python `all_threats[t] = xs` (assignment, used by the embedding stage). -/
def setThreatEntry (l : List (ThreatType × List String)) (t : ThreatType) (strs : List String) :
    List (ThreatType × List String) :=
  if (l.map Prod.fst).contains t then
    l.map fun kv => if kv.1 = t then (kv.1, strs) else kv
  else l ++ [(t, strs)]

/-- Method `NERValidator.validate`.  The NER-pipeline half is wrapped in its own
try/except in the source; the regex-merge half is not, and calls
`.items()` on a list. -/
def NERValidator.validate (pipelineInit : Bool) (entities : List NerEntity)
    (confidence_threshold : ℚ) (d : PatternDetector) (text : String) :
    Except PyError (Bool × ℚ × List (ThreatType × List String)) :=
  if ¬ pipelineInit then
    .error (.runtimeError ("NER validator not initialized. Call initialize() first."))
  else
    let processed := entities.foldl
      (fun (acc : ℚ × List (ThreatType × List String)) e =>
        if e.score < confidence_threshold then acc
        else
          let m := max acc.1 e.score
          match entityMapping e.entity_group with
          | some pm => (m, addThreatEntry acc.2 pm.1 [pm.2 ++ ":" ++ e.word])
          | none => (m, acc.2))
      ((0 : ℚ), [])
    let ner_max_confidence := processed.1
    let pattern_results := d.detect_all text
    do
      let items ← listItems pattern_results
      let threats_detected := items.foldl
        (fun td it => addThreatEntry td it.1 it.2.2) processed.2
      let has_threats := ¬ threats_detected.isEmpty
      if has_threats then
        let pattern_confidence := items.foldl (fun acc it => max acc it.2.1) 0
        let max_confidence :=
          if pattern_results.isEmpty then ner_max_confidence
          else max ner_max_confidence pattern_confidence
        pure (true, max_confidence, threats_detected)
      else
        pure (false, 0, [])

/-! ### Guard validator (security/guard_validator.py) -/

/-- Outcome of one Llama-Guard inference: either the blocking call
finishes after `elapsed` seconds with a verdict, or it raises.  The
verdict flag (the source's first tuple component) is `unsafeVerdict`.
`asyncio.wait_for` delivers the result only when it completes within the
deadline and raises TimeoutError otherwise. -/
inductive GuardInference
  | completes (unsafeVerdict : Bool) (confidence : ℚ) (violated_categories : List String) (elapsed : ℚ)
  | raises
deriving DecidableEq, Repr

def guardDefaultTimeoutSeconds : ℚ := 2

def GuardValidator.validate (initialized : Bool) (timeout_seconds : ℚ)
    (inference : GuardInference) : Except PyError (Bool × ℚ × List String) :=
  if ¬ initialized then
    .error (.runtimeError ("Guard validator not initialized. Call initialize() first."))
  else
    match inference with
    | .completes unsafeVerdict confidence violated_categories elapsed =>
        if timeout_seconds < elapsed then .ok (false, 0, [])
        else .ok (unsafeVerdict, confidence, violated_categories)
    | .raises => .ok (false, 0, [])

/-! ### Validation orchestrator (security/validators.py) -/

structure OrchestratorConfig where
  ner_enabled : Bool
  guard_enabled : Bool
  regex_enabled : Bool
  embeddings_enabled : Bool
deriving DecidableEq, Repr

structure AttackPattern where
  id : Nat
  pattern_text : String
  threat_types : List ThreatType
  confidence_level : ℚ
  detection_count : Nat
  first_seen : Nat
  last_seen : Nat
deriving DecidableEq, Repr

/-- One `validate` call's environment: the configuration plus the outcome
of every external (model / store) collaborator consulted during the call.
`embedMatch` is the result of `PatternMatcher.is_similar_to_known_pattern`
(`none` covers both no-match and its internally caught errors);
`nerEntities` is what the NER pipeline tags on this text;
`guardInference` is the Llama-Guard inference behaviour. -/
structure ValidateEnv where
  cfg : OrchestratorConfig
  cm : ConfidenceThresholdManager
  detector : PatternDetector
  embedMatch : Option (AttackPattern × ℚ)
  nerInitOk : Bool
  guardInitOk : Bool
  nerEntities : List NerEntity
  nerThreshold : ℚ
  guardInference : GuardInference
  now : Nat

/-- The running aggregation state of `ValidationOrchestrator.validate`. -/
structure Agg where
  validation_results : List ValidationResult
  all_threats : List (ThreatType × List String)
  max_confidence : ℚ
  primary_threat_type : Option ThreatType
  detection_layer : Option DetectionLayer
  learned_pattern_id : Option Nat
deriving DecidableEq, Repr

def ratStr (q : ℚ) : String := toString q.num ++ "/" ++ toString q.den

/- the f-string `Pattern match (similarity={similarity:.2f})`, with the
similarity rendered exactly instead of rounded -/
def patternMatchNote (similarity : ℚ) : String :=
  "Pattern match (similarity=" ++ ratStr similarity ++ ")"

/-- Step 0: learned-pattern lookup (embeddings layer, T066). -/
def embeddingStage (env : ValidateEnv) (a : Agg) : Agg :=
  if env.cfg.embeddings_enabled then
    match env.embedMatch with
    | some ms =>
        let matched_pattern := ms.1
        let similarity := ms.2
        let a1 : Agg := { a with
          max_confidence := max (19/20) similarity,
          primary_threat_type := some (match matched_pattern.threat_types with
            | t :: _ => t
            | [] => .prompt_injection),
          detection_layer := some .embedding_match,
          learned_pattern_id := some matched_pattern.id }
        let a2 := { a1 with all_threats := (matched_pattern.threat_types.foldl
            (fun th t => setThreatEntry th t [patternMatchNote similarity]) a1.all_threats) }
        { a2 with validation_results := a2.validation_results ++
            [⟨.embedding_match, false, similarity, matched_pattern.threat_types,
              .embedInfo matched_pattern.id similarity⟩] }
    | none => a
  else a

/-- Step 1: regex pattern matching. -/
def regexStage (env : ValidateEnv) (text : String) (a : Agg) : Agg :=
  if env.cfg.regex_enabled then
    let pattern_results := env.detector.detect_all text
    if pattern_results.isEmpty then a
    else
      let a1 := pattern_results.foldl
        (fun acc d =>
          let acc1 := { acc with
            all_threats := addThreatEntry acc.all_threats d.threat_type [d.matched_text] }
          if d.confidence > acc1.max_confidence then
            { acc1 with
              max_confidence := d.confidence,
              primary_threat_type := some d.threat_type,
              detection_layer := some .regex }
          else acc1)
        a
      { a1 with validation_results := a1.validation_results ++
          [⟨.regex, pattern_results.isEmpty, a1.max_confidence,
            pattern_results.map (fun d => d.threat_type),
            .regexMatches (pattern_results.map fun d => (d.threat_type, d.confidence, d.matched_text))⟩] }
  else a

/-- Step 2: NER validation, whose exceptions are caught and recorded as a
passed result with zero confidence. -/
def nerStage (env : ValidateEnv) (text : String) (a : Agg) : Agg :=
  if env.cfg.ner_enabled then
    match NERValidator.validate true env.nerEntities env.nerThreshold env.detector text with
    | .ok res =>
        let has_threats := res.1
        let confidence := res.2.1
        let threats := res.2.2
        let a1 :=
          if has_threats then
            let a2 := { a with all_threats := (threats.foldl
                (fun th kv => addThreatEntry th kv.1 kv.2) a.all_threats) }
            if confidence > a2.max_confidence then
              { a2 with
                max_confidence := confidence,
                primary_threat_type := (threats.map Prod.fst).head?,
                detection_layer := some .ner }
            else a2
          else a
        { a1 with validation_results := a1.validation_results ++
            [⟨.ner, !has_threats, confidence, threats.map Prod.fst, .nerEntities threats⟩] }
    | .error e =>
        { a with validation_results := a.validation_results ++
            [⟨.ner, true, 0, [], .errorDetail e.str⟩] }
  else a

/-- Steps 0-2: the aggregation of layer signals before the tiering
decision. -/
def aggregateStages (env : ValidateEnv) (text : String) : Agg :=
  nerStage env text (regexStage env text (embeddingStage env ⟨[], [], 0, none, none, none⟩))

/-- Step 4: Guard validation when the action asks for further validation.
Returns the `guard_result` optional verdict together with the updated
aggregation. -/
def guardStage (env : ValidateEnv) (action : SecAction) (a : Agg) : Option Bool × Agg :=
  if action = .validate_further ∧ env.cfg.guard_enabled then
    match GuardValidator.validate true guardDefaultTimeoutSeconds env.guardInference with
    | .ok res =>
        let unsafeVerdict := res.1
        let guard_confidence := res.2.1
        let violated_categories := res.2.2
        let a4 :=
          if unsafeVerdict then
            let a5 := { a with max_confidence := max a.max_confidence guard_confidence }
            if violated_categories.contains ("S12") ∨ violated_categories.contains ("S4") then
              { a5 with
                all_threats := addThreatEntry a5.all_threats .prompt_injection violated_categories,
                primary_threat_type := some .prompt_injection,
                detection_layer := some .guard }
            else a5
          else a
        (some unsafeVerdict,
          { a4 with validation_results := a4.validation_results ++
              [⟨.guard, !unsafeVerdict, guard_confidence,
                if unsafeVerdict then [.prompt_injection] else [], .guardCats violated_categories⟩] })
    | .error _ => (none, a)
  else (none, a)

/-- Method `_redact_content` (T057): threat-specific redaction, truncation to
1000 characters, and the threat-summary suffix. -/
def redact_content (text : String) (threats : List (ThreatType × List String)) : String :=
  let t := if threats.isEmpty then text else redact_by_threat_type text threats
  let preview := if t.length > 1000 then String.mk (t.toList.take 1000) else t
  if threats.isEmpty then preview
  else
    preview ++ "... [Threats detected: " ++
      String.intercalate (", ")
        (threats.map fun kv => kv.1.value ++ ":" ++ toString kv.2.length) ++ "]"

/-- Method `ValidationOrchestrator.validate`.  Raises ValueError on empty text;
lazy initialization failures of an enabled model layer propagate (they
happen before the per-layer try/except blocks).  Returns the blocking
decision, the single emitted SecurityEvent, and the audit trail.  The
final decision calls `should_block` without forwarding the orchestrator's
`guard_enabled` flag, so the manager's Python default `True` is what the
decision sees (validators.py line 299). -/
def ValidationOrchestrator.validate (env : ValidateEnv) (text : String) (request_id : Nat)
    (provider model : Option String) :
    Except PyError (Bool × SecurityEvent × List ValidationResult) :=
  if text.isEmpty then .error (.valueError ("Text cannot be None or empty"))
  else if env.cfg.ner_enabled ∧ ¬ env.nerInitOk then
    .error (.runtimeError ("failed to initialize ner validator"))
  else if env.cfg.guard_enabled ∧ ¬ env.guardInitOk then
    .error (.runtimeError ("failed to initialize guard validator"))
  else
    let a3 := aggregateStages env text
    let action := env.cm.get_action a3.max_confidence env.cfg.guard_enabled
    let stepped := guardStage env action a3
    let guard_result := stepped.1
    let a6 := stepped.2
    let should_block := env.cm.should_block a6.max_confidence guard_result true
    let et_sev : EventType × SeverityLevel :=
      if should_block then
        (.blocked,
         env.cm.get_severity a6.max_confidence (a6.primary_threat_type.getD .prompt_injection))
      else if a6.max_confidence ≥ env.cm.medium_threshold then
        (.medium_confidence_warning, .medium)
      else
        (.allowed, .info)
    let security_event : SecurityEvent := {
      event_type := et_sev.1,
      threat_type := a6.primary_threat_type,
      confidence_level := if a6.primary_threat_type.isSome then some a6.max_confidence else none,
      request_id := request_id,
      redacted_content := redact_content text a6.all_threats,
      severity_level := et_sev.2,
      detection_layer := a6.detection_layer,
      learned_pattern_id := a6.learned_pattern_id,
      provider := provider,
      model := model,
      timestamp := env.now }
    .ok (should_block, security_event, a6.validation_results)

/-! ### Response-side hooks (proxy/hooks.py) -/

def determine_leak_severity (threat_type : ThreatType) : SeverityLevel :=
  if threat_type = .private_key ∨ threat_type = .seed_phrase then .critical
  else if threat_type = .blockchain_address ∨ threat_type = .api_key_leak then .high
  else if threat_type = .pii ∨ threat_type = .financial_secret then .high
  else .medium

/-- Helper `_redact_response_for_logging`: 500-character preview plus a leak
summary. -/
def redact_response_for_logging (text : String) (leaks : List (ThreatType × List String)) :
    String :=
  let preview := if text.length > 500 then String.mk (text.toList.take 500) else text
  preview ++ "... [Data leaks detected: " ++
    String.intercalate (", ") (leaks.map fun kv => kv.1.value ++ ":" ++ toString kv.2.length) ++ "]"

/-- The per-leak-kind event loop of `async_post_call_hook` (hooks.py lines
233-246): one `data_leak_alert` SecurityEvent per detected threat kind. -/
def leakAlertEvents (request_id : Nat) (response_text : String)
    (leaks : List (ThreatType × List String)) (confidence : ℚ)
    (provider model : Option String) (now : Nat) : List SecurityEvent :=
  leaks.map fun kv =>
    { event_type := .data_leak_alert,
      threat_type := some kv.1,
      confidence_level := some confidence,
      request_id := request_id,
      redacted_content := redact_response_for_logging response_text leaks,
      severity_level := determine_leak_severity kv.1,
      detection_layer := some .ner,
      learned_pattern_id := none,
      provider := provider,
      model := model,
      timestamp := now }

/-- The `data_leak_alert` events `async_post_call_hook` writes for one
response.  The whole hook body sits in one try/except that returns the
response unmodified on any exception, so an exception out of
`NERValidator.validate` yields no events. -/
def async_post_call_hook_events (pipelineInit : Bool) (entities : List NerEntity)
    (nerThreshold : ℚ) (d : PatternDetector) (request_id : Nat) (response_text : String)
    (provider model : Option String) (now : Nat) : List SecurityEvent :=
  if response_text.isEmpty then []
  else
    match NERValidator.validate pipelineInit entities nerThreshold d response_text with
    | .ok res =>
        if res.1 then leakAlertEvents request_id response_text res.2.2 res.2.1 provider model now
        else []
    | .error _ => []

/-! ### Learned-pattern store (learning/pattern_store.py, embedder.py)

ChromaDB is an external library: its collection is modelled as an ordered
list of entries and its cosine-space nearest-neighbour query as sorting by
ascending distance (stable) and taking the first `n_results`; the store's
own code (similarity conversion, thresholding, dedup flow) is transcribed
from the source.  The distance function and the embedding model are
parameters (chroma metric `dist`, `encode` pure per text). -/

structure ChromaEntry (Emb : Type) where
  id : Nat
  embedding : Emb
  pattern : AttackPattern

structure PatternStore (Emb : Type) where
  entries : List (ChromaEntry Emb)

def chromaQuery (dist : Emb → Emb → ℚ) (s : PatternStore Emb) (e : Emb) (n : Nat) :
    List (ChromaEntry Emb) :=
  (pySortBy (fun a b => decide (dist e a.embedding ≤ dist e b.embedding)) s.entries).take n

/-- Method `query_similar`: ChromaDB returns cosine distances; the code converts
each to `similarity = 1.0 - distance` and drops results below the
threshold. -/
def PatternStore.query_similar (dist : Emb → Emb → ℚ) (s : PatternStore Emb)
    (query_embedding : Emb) (n_results : Nat) (similarity_threshold : ℚ) :
    List (Nat × ℚ × AttackPattern) :=
  (chromaQuery dist s query_embedding n_results).filterMap fun entry =>
    let similarity := 1 - dist query_embedding entry.embedding
    if similarity < similarity_threshold then none
    else some (entry.id, similarity, entry.pattern)

def PatternStore.check_duplicate (dist : Emb → Emb → ℚ) (s : PatternStore Emb)
    (query_embedding : Emb) (similarity_threshold : ℚ) : Option (Nat × ℚ) :=
  match s.query_similar dist query_embedding 1 similarity_threshold with
  | m :: _ => some (m.1, m.2.1)
  | [] => none

/-- Method `update_pattern`: a missing id logs a warning and changes nothing. -/
def PatternStore.update_pattern (s : PatternStore Emb) (pattern_id : Nat)
    (detection_count : Nat) (last_seen : Nat) : PatternStore Emb :=
  if (s.entries.map fun en => en.id).contains pattern_id then
    ⟨s.entries.map fun en =>
      if en.id = pattern_id then
        { en with pattern :=
          { en.pattern with detection_count := detection_count, last_seen := last_seen } }
      else en⟩
  else s

def PatternStore.add_pattern (s : PatternStore Emb) (pattern : AttackPattern)
    (embedding : Emb) : PatternStore Emb :=
  ⟨s.entries ++ [⟨pattern.id, embedding, pattern⟩]⟩

def PatternStore.count_patterns (s : PatternStore Emb) : Nat :=
  s.entries.length

/-- Function `learn_pattern_async` (embedder.py, T065): embed, dedupe at 0.95,
increment-or-add.  `fresh_id` stands for `uuid4()` and `now` for
`datetime.utcnow()`. -/
def learn_pattern (dist : Emb → Emb → ℚ) (encode : String → Emb) (s : PatternStore Emb)
    (text : String) (threat_types : List ThreatType) (confidence : ℚ)
    (fresh_id : Nat) (now : Nat) : Option Nat × PatternStore Emb :=
  let embedding := encode text
  match s.check_duplicate dist embedding (19/20) with
  | some dup =>
      match s.query_similar dist embedding 1 (19/20) with
      | r :: _ => (none, s.update_pattern dup.1 (r.2.2.detection_count + 1) now)
      | [] => (none, s)
  | none =>
      let pattern : AttackPattern := {
        id := fresh_id,
        pattern_text := String.mk (text.toList.take 500),
        threat_types := threat_types,
        confidence_level := confidence,
        detection_count := 1,
        first_seen := now,
        last_seen := now }
      (some pattern.id, s.add_pattern pattern embedding)

/-! ### Event journal (storage/events_db.py)

The security_events table is modelled as the insertion-ordered list of
rows; SQL `ORDER BY timestamp DESC LIMIT ? OFFSET ?` becomes a stable
descending sort followed by drop/take, `DELETE WHERE timestamp < cutoff`
a filter, with the deleted rowcount returned. -/

structure EventsDatabase where
  events : List SecurityEvent

def EventsDatabase.insert_event (db : EventsDatabase) (e : SecurityEvent) : EventsDatabase :=
  ⟨db.events ++ [e]⟩

def EventsDatabase.insert_events_batch (db : EventsDatabase) (es : List SecurityEvent) :
    EventsDatabase :=
  ⟨db.events ++ es⟩

def eventMatchesFilters (event_type : Option EventType) (threat_type : Option ThreatType)
    (severity : Option SeverityLevel) (start_time end_time : Option Nat)
    (e : SecurityEvent) : Bool :=
  (match event_type with | some t => decide (e.event_type = t) | none => true) &&
  (match threat_type with | some t => decide (e.threat_type = some t) | none => true) &&
  (match severity with | some s => decide (e.severity_level = s) | none => true) &&
  (match start_time with | some t => decide (t ≤ e.timestamp) | none => true) &&
  (match end_time with | some t => decide (e.timestamp ≤ t) | none => true)

def EventsDatabase.get_events (db : EventsDatabase) (event_type : Option EventType)
    (threat_type : Option ThreatType) (severity : Option SeverityLevel)
    (start_time end_time : Option Nat) (limit offset : Nat) : List SecurityEvent :=
  let filtered := db.events.filter (eventMatchesFilters event_type threat_type severity start_time end_time)
  (((pySortBy (fun a b => decide (b.timestamp ≤ a.timestamp)) filtered).drop offset).take limit)

def secondsPerDay : Nat := 86400

/-- Method `cleanup_old_events`: `cutoff_date = datetime.utcnow() -
timedelta(days=retention_days)`; deletes rows with `timestamp <
cutoff_date` and returns the deleted rowcount. -/
def EventsDatabase.cleanup_old_events (db : EventsDatabase) (now retention_days : Nat) :
    EventsDatabase × Nat :=
  let cutoff_date := now - retention_days * secondsPerDay
  (⟨db.events.filter fun e => decide (¬ (e.timestamp < cutoff_date))⟩,
   (db.events.filter fun e => decide (e.timestamp < cutoff_date)).length)

/-! ### Concrete instances used by the claim witnesses and counterexamples -/

/-- The single event of the concrete C5 witness run. -/
def leakEventW : SecurityEvent :=
  { event_type := .data_leak_alert,
    threat_type := some .blockchain_address,
    confidence_level := some (19/20),
    request_id := 7,
    redacted_content := redact_response_for_logging ("resp") [(.blockchain_address, ["0xabc"])],
    severity_level := determine_leak_severity .blockchain_address,
    detection_layer := some .ner,
    learned_pattern_id := none,
    provider := none,
    model := none,
    timestamp := 3 }

/-- A detector whose BIP39 wordlist file was missing (seed-phrase
detection disabled, everything else unchanged). -/
def detectorNoWordlist : PatternDetector := ⟨none⟩

/-- An environment with only the NER layer enabled. -/
def nerOnlyEnv : ValidateEnv :=
  ⟨⟨true, false, false, false⟩, ⟨9/10, 1/2, 3/10⟩, detectorNoWordlist, none, true, true, [],
   7/10, .raises, 0⟩

/-- C9 witness: a concrete two-event journal (timestamps 5 and 9) with
limit 2 and a purge cutoff between them. -/
def dbW : EventsDatabase :=
  ⟨[{ event_type := .allowed, threat_type := none, confidence_level := none, request_id := 1,
      redacted_content := "a", severity_level := .info, detection_layer := none,
      learned_pattern_id := none, provider := none, model := none, timestamp := 5 },
    { event_type := .blocked, threat_type := some .prompt_injection, confidence_level := some (19/20),
      request_id := 2, redacted_content := "b", severity_level := .critical,
      detection_layer := some .regex, learned_pattern_id := none, provider := none, model := none,
      timestamp := 9 }]⟩

def regexOnlyConfig : OrchestratorConfig := ⟨false, false, true, false⟩

/-- The default thresholds (0.9 / 0.5 / 0.3) of `get_confidence_manager`. -/
def defaultThresholds : ConfidenceThresholdManager := ⟨9/10, 1/2, 3/10⟩

/-- A validate environment with only the regex layer enabled. -/
def mkRegexOnlyEnv (cm : ConfidenceThresholdManager) : ValidateEnv :=
  ⟨regexOnlyConfig, cm, detectorNoWordlist, none, true, true, [], 7/10, .raises, 0⟩

/- concrete instantiation of the store model for the C7 witness -/
def distW : Nat → Nat → ℚ := fun a b => if a = b then 0 else 1

def encodeW : String → Nat := fun _ => 0

def patW : AttackPattern := ⟨5, "w", [.prompt_injection], 9/10, 1, 0, 0⟩

def storeW : PatternStore Nat := ⟨[⟨5, 0, patW⟩]⟩

def emptyStoreW : PatternStore Nat := ⟨[]⟩

/-! ### Helper lemmas about the stable sort -/

theorem pyInsert_perm (le : α → α → Bool) (a : α) (l : List α) :
    (pyInsert le a l).Perm (a :: l) := by
  induction l with
  | nil => simp [pyInsert]
  | cons b t ih =>
      simp only [pyInsert]
      split
      · exact List.Perm.refl _
      · exact (ih.cons b).trans (List.Perm.swap a b t)

theorem pySortBy_perm (le : α → α → Bool) (l : List α) :
    (pySortBy le l).Perm l := by
  induction l with
  | nil => simp [pySortBy]
  | cons a t ih =>
      simp only [pySortBy]
      exact (pyInsert_perm le a (pySortBy le t)).trans (ih.cons a)

theorem mem_pyInsert (le : α → α → Bool) (a x : α) (l : List α) :
    x ∈ pyInsert le a l ↔ x = a ∨ x ∈ l := by
  have h : x ∈ pyInsert le a l ↔ x ∈ a :: l := (pyInsert_perm le a l).mem_iff
  simpa using h

theorem pyInsert_pairwise (le : α → α → Bool)
    (htot : ∀ a b, le a b = true ∨ le b a = true)
    (htr : ∀ a b c, le a b = true → le b c = true → le a c = true)
    (a : α) (l : List α) (h : l.Pairwise (fun x y => le x y = true)) :
    (pyInsert le a l).Pairwise (fun x y => le x y = true) := by
  induction l with
  | nil => simp [pyInsert]
  | cons b t ih =>
      simp only [pyInsert]
      rcases List.pairwise_cons.mp h with ⟨hb, ht⟩
      split
      · rename_i hab
        refine List.pairwise_cons.mpr ⟨?_, h⟩
        intro y hy
        rcases List.mem_cons.mp hy with rfl | hyt
        · exact hab
        · exact htr a b y hab (hb y hyt)
      · rename_i hab
        have hba : le b a = true := (htot a b).resolve_left hab
        refine List.pairwise_cons.mpr ⟨?_, ih ht⟩
        intro y hy
        rcases (mem_pyInsert le a y t).mp hy with rfl | hyt
        · exact hba
        · exact hb y hyt

theorem pySortBy_pairwise (le : α → α → Bool)
    (htot : ∀ a b, le a b = true ∨ le b a = true)
    (htr : ∀ a b c, le a b = true → le b c = true → le a c = true)
    (l : List α) :
    (pySortBy le l).Pairwise (fun x y => le x y = true) := by
  induction l with
  | nil => simp [pySortBy]
  | cons a t ih =>
      simp only [pySortBy]
      exact pyInsert_pairwise le htot htr a _ ih

/-- In a sorted nonempty list, the head is below every member. -/
theorem pySortBy_head_le (le : α → α → Bool)
    (htot : ∀ a b, le a b = true ∨ le b a = true)
    (htr : ∀ a b c, le a b = true → le b c = true → le a c = true)
    (l : List α) (h : α) (t : List α) (hst : pySortBy le l = h :: t) :
    ∀ x ∈ l, le h x = true := by
  intro x hx
  have hmem : x ∈ h :: t := by
    have hp : x ∈ l ↔ x ∈ pySortBy le l := (pySortBy_perm le l).symm.mem_iff
    rw [← hst]
    exact hp.mp hx
  rcases List.mem_cons.mp hmem with rfl | hxt
  · exact (htot x x).elim id id
  · have hp := pySortBy_pairwise le htot htr l
    rw [hst] at hp
    exact (List.pairwise_cons.mp hp).1 x hxt

/-! ### Claims -/

/-- C10: `PatternDetector.detect_all` returns its detections in
non-increasing confidence order, and as a pure function of the text and
the loaded BIP39 wordlist it is idempotent: repeated calls agree and no
state is mutated (the embedding is state-free by construction). -/
theorem detect_all_sorted_and_pure (d : PatternDetector) (text : String) :
    (d.detect_all text).Pairwise (fun a b => b.confidence ≤ a.confidence) ∧
    d.detect_all text = d.detect_all text := by
  constructor
  · unfold PatternDetector.detect_all
    have htot : ∀ a b : ThreatDetection,
        decide (b.confidence ≤ a.confidence) = true ∨
        decide (a.confidence ≤ b.confidence) = true := by
      intro a b
      rcases le_total b.confidence a.confidence with h | h
      · exact Or.inl (decide_eq_true h)
      · exact Or.inr (decide_eq_true h)
    have htr : ∀ a b c : ThreatDetection,
        decide (b.confidence ≤ a.confidence) = true →
        decide (c.confidence ≤ b.confidence) = true →
        decide (c.confidence ≤ a.confidence) = true := by
      intro a b c h1 h2
      exact decide_eq_true ((of_decide_eq_true h2).trans (of_decide_eq_true h1))
    have h := pySortBy_pairwise
      (fun a b : ThreatDetection => decide (b.confidence ≤ a.confidence)) htot htr
      (d.detect_prompt_injection text ++ d.detect_blockchain_address text ++
        d.detect_private_key text ++ d.detect_api_key text ++ d.detect_seed_phrase text)
    exact h.imp fun hab => of_decide_eq_true hab
  · rfl

/-- C8: a Guard inference that does not complete within the configured
deadline (default 2.0 s) yields `(false, 0.0, ∅)` and raises nothing. -/
theorem guard_timeout_safe_verdict (timeout_seconds elapsed : ℚ) (unsafeVerdict : Bool)
    (confidence : ℚ) (violated_categories : List String)
    (h : timeout_seconds < elapsed) :
    GuardValidator.validate true timeout_seconds
      (.completes unsafeVerdict confidence violated_categories elapsed) = .ok (false, 0, []) ∧
    guardDefaultTimeoutSeconds = 2 := by
  refine ⟨?_, rfl⟩
  simp [GuardValidator.validate, h]

/-- C8 witness: concrete deadline 2 s overrun at 3 s. -/
theorem guard_timeout_safe_verdict_witness :
    GuardValidator.validate true 2 (.completes true (19/20) ["S1"] 3) = .ok (false, 0, []) ∧
    guardDefaultTimeoutSeconds = 2 :=
  guard_timeout_safe_verdict 2 3 true (19/20) ["S1"] (by norm_num)

/-- C5 counterexample: a `data_leak_alert` event written by the response
hook's per-kind loop for a detected prompt-injection leak has severity
`medium`, below the claimed floor of `high`. -/
theorem leak_alert_severity_counterexample :
    (leakAlertEvents 1 ("x") [(.prompt_injection, ["x"])] (9/10) none none 0).map
      (fun e => (e.event_type, e.severity_level)) =
      [(.data_leak_alert, .medium)] ∧
    ¬ (∀ e ∈ leakAlertEvents 1 ("x") [(.prompt_injection, ["x"])] (9/10) none none 0,
        e.severity_level = .high ∨ e.severity_level = .critical) := by
  constructor
  · rfl
  · intro h
    simp [leakAlertEvents, determine_leak_severity] at h

/-- C5 amended: each `data_leak_alert` event carries severity
`_determine_leak_severity` of its kind, which is at least `high` exactly
for private_key, seed_phrase, blockchain_address, api_key_leak, pii and
financial_secret — prompt_injection, jailbreak and toxic_content get
`medium`; moreover in the current code the post-call hook writes no leak
events at all, because `NERValidator.validate` always raises and the
hook's outer try/except swallows the error. -/
theorem leak_alert_severity_amended :
    (∀ (rid : Nat) (resp : String) (leaks : List (ThreatType × List String)) (conf : ℚ)
      (prov mo : Option String) (now : Nat) (e : SecurityEvent),
      e ∈ leakAlertEvents rid resp leaks conf prov mo now →
      ∃ kv ∈ leaks, e.threat_type = some kv.1 ∧
        e.severity_level = determine_leak_severity kv.1) ∧
    (∀ t : ThreatType,
      (determine_leak_severity t = .critical ∨ determine_leak_severity t = .high) ↔
      t ∈ ([.private_key, .seed_phrase, .blockchain_address, .api_key_leak, .pii,
            .financial_secret] : List ThreatType)) ∧
    (∀ (pipelineInit : Bool) (entities : List NerEntity) (thr : ℚ) (d : PatternDetector)
      (rid : Nat) (resp : String) (prov mo : Option String) (now : Nat),
      async_post_call_hook_events pipelineInit entities thr d rid resp prov mo now = []) := by
  refine ⟨?_, ?_, ?_⟩
  · intro rid resp leaks conf prov mo now e he
    simp only [leakAlertEvents, List.mem_map] at he
    rcases he with ⟨kv, hkv, rfl⟩
    exact ⟨kv, hkv, rfl, rfl⟩
  · intro t
    cases t <;> simp [determine_leak_severity]
  · intro pipelineInit entities thr d rid resp prov mo now
    unfold async_post_call_hook_events
    cases hresp : resp.isEmpty
    · simp only [Bool.false_eq_true, if_false]
      cases pipelineInit <;> rfl
    · simp


/-- C5 witness: the per-kind loop at a concrete blockchain-address leak
carries exactly the rule's severity, and a concrete hook run writes no
events. -/
theorem leak_alert_severity_amended_witness :
    (∃ kv ∈ ([(.blockchain_address, ["0xabc"])] : List (ThreatType × List String)),
      leakEventW.threat_type = some kv.1 ∧
      leakEventW.severity_level = determine_leak_severity kv.1) ∧
    async_post_call_hook_events true [] (7/10) ⟨none⟩ 7 ("resp") none none 3 = [] := by
  constructor
  · exact leak_alert_severity_amended.1 7 ("resp") [(.blockchain_address, ["0xabc"])] (19/20)
      none none 3 leakEventW (List.mem_singleton_self _)
  · exact leak_alert_severity_amended.2.2 true [] (7/10) ⟨none⟩ 7 ("resp") none none 3


/-- C2 counterexample: the input matches exactly one prompt-injection
pattern (`roleplay as`) and the returned confidence is 0.85, not the
claimed 0.80. -/
theorem prompt_injection_single_match_counterexample :
    (matchedInjectionPatterns ("roleplay as")).length = 1 ∧
    detectorNoWordlist.detect_prompt_injection ("roleplay as") =
      [⟨.prompt_injection, 17/20, "roleplay as"⟩] ∧
    (17/20 : ℚ) ≠ 4/5 := by
  have hm : matchedInjectionPatterns ("roleplay as") = ["roleplay as"] := by decide
  refine ⟨by rw [hm]; rfl, ?_, by norm_num⟩
  unfold PatternDetector.detect_prompt_injection
  rw [hm]
  norm_num

/-- C2 amended: when `n ≥ 1` patterns match, `detect_prompt_injection`
returns one detection whose matched text is the first pattern's match and
whose confidence is `min(0.95, 0.8 + n·0.05)` — so a single match scores
0.85 (0.80 is never produced for a match), each additional matching
pattern adds 0.05, and from three matches on the score is capped at
0.95. -/
theorem prompt_injection_confidence_amended (d : PatternDetector) (text : String)
    (m : String) (ms : List String) (h : matchedInjectionPatterns text = m :: ms) :
    d.detect_prompt_injection text =
      [⟨.prompt_injection, min (19/20 : ℚ) (4/5 + (((m :: ms).length : ℚ) * (1/20))), m⟩] ∧
    (ms = [] → min (19/20 : ℚ) (4/5 + (((m :: ms).length : ℚ) * (1/20))) = 17/20) ∧
    (3 ≤ (m :: ms).length → min (19/20 : ℚ) (4/5 + (((m :: ms).length : ℚ) * (1/20))) = 19/20) := by
  refine ⟨?_, ?_, ?_⟩
  · unfold PatternDetector.detect_prompt_injection
    rw [h]
  · rintro rfl
    norm_num
  · intro hn
    have h3 : (3 : ℚ) ≤ ((m :: ms).length : ℚ) := by exact_mod_cast hn
    have : (19/20 : ℚ) ≤ 4/5 + (((m :: ms).length : ℚ) * (1/20)) := by linarith
    exact min_eq_left this

/-- C2 witness: the amended statement at the single-match input
`roleplay as`. -/
theorem prompt_injection_confidence_amended_witness :
    detectorNoWordlist.detect_prompt_injection ("roleplay as") =
      [⟨.prompt_injection, min (19/20 : ℚ) (4/5 + ((([("roleplay as")].length : ℚ)) * (1/20))),
        "roleplay as"⟩] ∧
    min (19/20 : ℚ) (4/5 + ((([("roleplay as")].length : ℚ)) * (1/20))) = 17/20 := by
  have h := prompt_injection_confidence_amended detectorNoWordlist ("roleplay as")
    ("roleplay as") [] (by decide)
  exact ⟨h.1, h.2.1 rfl⟩

/-- C6: once the NER pipeline part has run, `NERValidator.validate` never
returns normally — it calls `.items()` on the list returned by
`PatternDetector.detect_all` and raises AttributeError — and therefore the
orchestrator's NER stage contributes no signal: it only appends the
caught-error audit record with passed = true and confidence 0, leaving the
aggregated confidence, primary threat kind, layer and threat map
untouched. -/
theorem ner_stage_always_error (entities : List NerEntity) (thr : ℚ)
    (d : PatternDetector) (text : String) (env : ValidateEnv) (a : Agg) :
    NERValidator.validate true entities thr d text =
      .error (.attributeError itemsAttrMsg) ∧
    (env.cfg.ner_enabled = true →
      nerStage env text a =
        { a with validation_results := a.validation_results ++
            [⟨.ner, true, 0, [], .errorDetail itemsAttrMsg⟩] }) := by
  have hv : ∀ (det : PatternDetector) (es : List NerEntity) (q : ℚ) (t : String),
      NERValidator.validate true es q det t = .error (.attributeError itemsAttrMsg) := by
    intro det es q t
    rfl
  refine ⟨hv d entities thr text, ?_⟩
  intro h
  unfold nerStage
  rw [h, hv env.detector env.nerEntities env.nerThreshold text]
  rfl


/-- C6 witness: a concrete NER validate call raises, and a concrete NER
stage run only appends the error audit record. -/
theorem ner_stage_always_error_witness :
    NERValidator.validate true [] (7/10) detectorNoWordlist ("hello") =
      .error (.attributeError itemsAttrMsg) ∧
    nerStage nerOnlyEnv ("hello") ⟨[], [], 0, none, none, none⟩ =
      ⟨[⟨.ner, true, 0, [], .errorDetail itemsAttrMsg⟩], [], 0, none, none, none⟩ := by
  have h := ner_stage_always_error [] (7/10) detectorNoWordlist ("hello") nerOnlyEnv
    ⟨[], [], 0, none, none, none⟩
  exact ⟨h.1, h.2 rfl⟩

/-- C9: an unfiltered query with `limit ≥ N` returns exactly the inserted
events in non-increasing timestamp order, and the retention purge keeps
exactly the events at or after the cutoff `now − retention_days`,
returning the count of the strictly older events it deleted. -/
theorem journal_query_and_retention (db : EventsDatabase) (limit now retention_days : Nat)
    (h : db.events.length ≤ limit) :
    ((db.get_events none none none none none limit 0).Perm db.events ∧
     (db.get_events none none none none none limit 0).Pairwise
       (fun a b => b.timestamp ≤ a.timestamp) ∧
     (db.get_events none none none none none limit 0).length = db.events.length) ∧
    ((db.cleanup_old_events now retention_days).1.events =
       db.events.filter (fun e => decide (now - retention_days * secondsPerDay ≤ e.timestamp)) ∧
     (db.cleanup_old_events now retention_days).2 =
       (db.events.filter fun e =>
         decide (e.timestamp < now - retention_days * secondsPerDay)).length) := by
  have hfilter : db.events.filter (eventMatchesFilters none none none none none) = db.events :=
    List.filter_eq_self.mpr fun a _ => rfl
  have hlen : (pySortBy (fun a b : SecurityEvent => decide (b.timestamp ≤ a.timestamp))
      db.events).length = db.events.length :=
    (pySortBy_perm _ _).length_eq
  have hget : db.get_events none none none none none limit 0 =
      pySortBy (fun a b : SecurityEvent => decide (b.timestamp ≤ a.timestamp)) db.events := by
    unfold EventsDatabase.get_events
    rw [hfilter]
    simp only [List.drop_zero]
    rw [List.take_of_length_le (by rw [hlen]; exact h)]
  have htot : ∀ a b : SecurityEvent,
      decide (b.timestamp ≤ a.timestamp) = true ∨ decide (a.timestamp ≤ b.timestamp) = true := by
    intro a b
    rcases Nat.le_total b.timestamp a.timestamp with hab | hab
    · exact Or.inl (decide_eq_true hab)
    · exact Or.inr (decide_eq_true hab)
  have htr : ∀ a b c : SecurityEvent,
      decide (b.timestamp ≤ a.timestamp) = true → decide (c.timestamp ≤ b.timestamp) = true →
      decide (c.timestamp ≤ a.timestamp) = true := by
    intro a b c h1 h2
    exact decide_eq_true (Nat.le_trans (of_decide_eq_true h2) (of_decide_eq_true h1))
  refine ⟨⟨?_, ?_, ?_⟩, ?_, ?_⟩
  · rw [hget]; exact pySortBy_perm _ _
  · rw [hget]
    exact (pySortBy_pairwise _ htot htr db.events).imp fun hab => of_decide_eq_true hab
  · rw [hget, hlen]
  · unfold EventsDatabase.cleanup_old_events
    refine List.filter_congr ?_
    intro a _
    simp [Nat.not_lt]
  · rfl


theorem journal_query_and_retention_witness :
    ((dbW.get_events none none none none none 2 0).Perm dbW.events ∧
     (dbW.get_events none none none none none 2 0).Pairwise
       (fun a b => b.timestamp ≤ a.timestamp) ∧
     (dbW.get_events none none none none none 2 0).length = dbW.events.length) ∧
    ((dbW.cleanup_old_events (secondsPerDay * 1 + 7) 1).1.events =
       dbW.events.filter (fun e =>
         decide ((secondsPerDay * 1 + 7) - 1 * secondsPerDay ≤ e.timestamp)) ∧
     (dbW.cleanup_old_events (secondsPerDay * 1 + 7) 1).2 =
       (dbW.events.filter fun e =>
         decide (e.timestamp < (secondsPerDay * 1 + 7) - 1 * secondsPerDay)).length) :=
  journal_query_and_retention dbW 2 (secondsPerDay * 1 + 7) 1 (by decide)




theorem get_confidence_level_medium (m : ConfidenceThresholdManager) (c : ℚ)
    (h1 : m.medium_threshold ≤ c) (h2 : c < m.high_threshold) :
    m.get_confidence_level c = .medium := by
  unfold ConfidenceThresholdManager.get_confidence_level
  rw [if_neg (by exact not_le.mpr h2), if_pos (by exact h1)]

theorem guardStage_skip (env : ValidateEnv) (act : SecAction) (a : Agg)
    (h : act ≠ .validate_further) : guardStage env act a = (none, a) := by
  unfold guardStage
  rw [if_neg]
  intro hc
  exact h hc.1

/-- Core decision fact shared by the C1 theorems: with Guard disabled and
the aggregated confidence inside the medium tier, `validate` emits a
medium-confidence warning and does not block, because the final decision
recomputes the action through `should_block` whose `guard_enabled`
parameter defaults to true (validators.py line 299) and no Guard verdict
exists. -/
theorem validate_medium_tier_guard_off_core (env : ValidateEnv) (text : String) (rid : Nat)
    (prov mo : Option String) (hempty : text.isEmpty = false) (hini : env.nerInitOk = true)
    (hguard : env.cfg.guard_enabled = false)
    (hmed : env.cm.medium_threshold ≤ (aggregateStages env text).max_confidence)
    (hhigh : (aggregateStages env text).max_confidence < env.cm.high_threshold) :
    ∃ ev rs, ValidationOrchestrator.validate env text rid prov mo = .ok (false, ev, rs) ∧
      ev.event_type = .medium_confidence_warning := by
  have hlvl := get_confidence_level_medium env.cm _ hmed hhigh
  have haction : env.cm.get_action (aggregateStages env text).max_confidence false = .block := by
    unfold ConfidenceThresholdManager.get_action
    rw [hlvl]
    rfl
  have hgs : guardStage env SecAction.block (aggregateStages env text) =
      (none, aggregateStages env text) :=
    guardStage_skip env .block _ (by intro hc; cases hc)
  have hsb : env.cm.should_block (aggregateStages env text).max_confidence none true = false := by
    unfold ConfidenceThresholdManager.should_block ConfidenceThresholdManager.get_action
    rw [hlvl]
    rfl
  unfold ValidationOrchestrator.validate
  simp only [hempty, Bool.false_eq_true, if_false, hini, not_true, and_false, hguard,
    false_and, haction, hgs, hsb, ge_iff_le, hmed, if_true]
  exact ⟨_, _, rfl, rfl⟩

/-- The aggregated confidence of the concrete `roleplay as` call: one
prompt-injection pattern matches, so the regex stage raises the running
maximum to 0.85. -/
theorem aggregate_roleplay_max :
    (aggregateStages (mkRegexOnlyEnv defaultThresholds) ("roleplay as")).max_confidence
      = 17/20 := by
  have hm : matchedInjectionPatterns ("roleplay as") = ["roleplay as"] := by decide
  unfold aggregateStages nerStage regexStage embeddingStage
  simp only [mkRegexOnlyEnv, regexOnlyConfig]
  unfold PatternDetector.detect_all PatternDetector.detect_prompt_injection
  rw [hm]
  have hrest : detectorNoWordlist.detect_blockchain_address ("roleplay as") = [] ∧
      detectorNoWordlist.detect_private_key ("roleplay as") = [] ∧
      detectorNoWordlist.detect_api_key ("roleplay as") = [] ∧
      detectorNoWordlist.detect_seed_phrase ("roleplay as") = [] := by decide
  rw [hrest.1, hrest.2.1, hrest.2.2.1, hrest.2.2.2]
  norm_num [pySortBy, pyInsert, addThreatEntry]

/-- C1 counterexample: the concrete call `roleplay as` with Guard disabled
aggregates confidence 0.85, inside the default medium tier [0.5, 0.9),
yet `validate` returns `should_block = false` with a medium-confidence
warning event. -/
theorem medium_tier_guard_disabled_counterexample :
    (aggregateStages (mkRegexOnlyEnv defaultThresholds) ("roleplay as")).max_confidence
        = 17/20 ∧
    (mkRegexOnlyEnv defaultThresholds).cfg.guard_enabled = false ∧
    (mkRegexOnlyEnv defaultThresholds).cm.medium_threshold ≤ 17/20 ∧
    (17/20 : ℚ) < (mkRegexOnlyEnv defaultThresholds).cm.high_threshold ∧
    (ValidationOrchestrator.validate (mkRegexOnlyEnv defaultThresholds) ("roleplay as") 1
        none none).map (fun r => (r.1, r.2.1.event_type)) =
      .ok (false, .medium_confidence_warning) := by
  refine ⟨aggregate_roleplay_max, rfl, by norm_num [mkRegexOnlyEnv, defaultThresholds],
    by norm_num [mkRegexOnlyEnv, defaultThresholds], ?_⟩
  obtain ⟨ev, rs, h1, h2⟩ := validate_medium_tier_guard_off_core
    (mkRegexOnlyEnv defaultThresholds) ("roleplay as") 1 none none rfl rfl rfl
    (by rw [aggregate_roleplay_max]; norm_num [mkRegexOnlyEnv, defaultThresholds])
    (by rw [aggregate_roleplay_max]; norm_num [mkRegexOnlyEnv, defaultThresholds])
  rw [h1]
  simp [Except.map, h2]

/-- C1 amended: when the aggregated confidence lands in the medium tier
and the Policy Classifier (Guard) layer is disabled, `validate` returns
`should_block = false` and emits a `medium_confidence_warning` event —
the orchestrator's final decision calls `should_block` without forwarding
`guard_enabled = False`, so the medium tier falls into the
further-validation branch and, with no Guard verdict, does not block. -/
theorem medium_tier_guard_disabled_amended (env : ValidateEnv) (text : String) (rid : Nat)
    (prov mo : Option String) (hempty : text.isEmpty = false) (hini : env.nerInitOk = true)
    (hguard : env.cfg.guard_enabled = false)
    (hmed : env.cm.medium_threshold ≤ (aggregateStages env text).max_confidence)
    (hhigh : (aggregateStages env text).max_confidence < env.cm.high_threshold) :
    ∃ ev rs, ValidationOrchestrator.validate env text rid prov mo = .ok (false, ev, rs) ∧
      ev.event_type = .medium_confidence_warning :=
  validate_medium_tier_guard_off_core env text rid prov mo hempty hini hguard hmed hhigh

/-- C1 witness: the amended statement at the concrete medium-tier call. -/
theorem medium_tier_guard_disabled_amended_witness :
    ∃ ev rs, ValidationOrchestrator.validate (mkRegexOnlyEnv defaultThresholds) ("roleplay as")
        1 none none = .ok (false, ev, rs) ∧
      ev.event_type = .medium_confidence_warning :=
  medium_tier_guard_disabled_amended (mkRegexOnlyEnv defaultThresholds) ("roleplay as") 1
    none none rfl rfl rfl
    (by rw [aggregate_roleplay_max]; norm_num [mkRegexOnlyEnv, defaultThresholds])
    (by rw [aggregate_roleplay_max]; norm_num [mkRegexOnlyEnv, defaultThresholds])

theorem get_severity_ne_info (m : ConfidenceThresholdManager) (c : ℚ) (t : ThreatType) :
    m.get_severity c t ≠ .info := by
  unfold ConfidenceThresholdManager.get_severity
  split <;> split_ifs <;> simp

/-- C4 amended: for every event a `validate` call emits, severity `info`
holds exactly when the event type is `allowed`; the threat-kind
component of the original biconditional does not hold, since an allowed
event may carry a low-confidence threat kind. -/
theorem severity_info_iff_allowed (env : ValidateEnv) (text : String) (rid : Nat)
    (prov mo : Option String) (b : Bool) (ev : SecurityEvent) (rs : List ValidationResult)
    (h : ValidationOrchestrator.validate env text rid prov mo = .ok (b, ev, rs)) :
    ev.severity_level = .info ↔ ev.event_type = .allowed := by
  unfold ValidationOrchestrator.validate at h
  split at h
  · exact absurd h (by simp)
  split at h
  · exact absurd h (by simp)
  split at h
  · exact absurd h (by simp)
  · injection h with h1
    injection h1 with hb h2
    injection h2 with hev hrs
    subst hev
    simp only []
    split
    · constructor
      · intro hinfo
        exact absurd hinfo (get_severity_ne_info env.cm _ _)
      · intro habs
        exact absurd habs (by simp)
    · split
      · simp
      · simp

/-- C4 counterexample: with the legal thresholds (0.9, 0.7, 0.3), the
input `sk-proj-abcdefghijklmnop` is detected as an API key at confidence
0.6, below the medium cut — the emitted event is `allowed` with severity
`info` while its threat kind is set, so `severity = info ⇔ allowed ∧
threat unset` fails in the forward direction. -/
theorem severity_info_counterexample :
    (⟨9/10, 7/10, 3/10⟩ : ConfidenceThresholdManager).valid ∧
    (ValidationOrchestrator.validate (mkRegexOnlyEnv ⟨9/10, 7/10, 3/10⟩)
        ("sk-proj-abcdefghijklmnop") 1 none none).map
      (fun r => (r.2.1.severity_level, r.2.1.event_type, r.2.1.threat_type)) =
      .ok (.info, .allowed, some .api_key_leak) := by
  constructor
  · norm_num [ConfidenceThresholdManager.valid]
  · have hm0 : matchedInjectionPatterns ("sk-proj-abcdefghijklmnop") = [] := by decide
    have hb : detectorNoWordlist.detect_blockchain_address ("sk-proj-abcdefghijklmnop") = [] := by
      decide
    have hp : detectorNoWordlist.detect_private_key ("sk-proj-abcdefghijklmnop") = [] := by decide
    have hk : API_KEY_PATTERNS.flatMap
        (fun p => apiFindAllStrings p ("sk-proj-abcdefghijklmnop")) = ["sk"] := by decide
    have hc : (API_CONTEXT_KEYWORDS.any fun kw =>
        strContains (strLower ("sk-proj-abcdefghijklmnop")) kw) = false := by decide
    have ha : detectorNoWordlist.detect_api_key ("sk-proj-abcdefghijklmnop") =
        [⟨.api_key_leak, 3/5, "sk"⟩] := by
      unfold PatternDetector.detect_api_key
      rw [hk]
      simp [hc]
    have hdet : detectorNoWordlist.detect_all ("sk-proj-abcdefghijklmnop") =
        [⟨.api_key_leak, 3/5, "sk"⟩] := by
      unfold PatternDetector.detect_all PatternDetector.detect_prompt_injection
      rw [hm0, hb, hp, ha]
      rfl
    unfold ValidationOrchestrator.validate aggregateStages nerStage regexStage embeddingStage
    simp only [mkRegexOnlyEnv, regexOnlyConfig]
    rw [hdet]
    norm_num [guardStage, ConfidenceThresholdManager.should_block,
      ConfidenceThresholdManager.get_action, ConfidenceThresholdManager.get_confidence_level,
      addThreatEntry, Except.map]
    rfl

/-- C4 witness: the amended biconditional at a concrete benign call. -/
theorem severity_info_iff_allowed_witness :
    ∃ b ev rs,
      ValidationOrchestrator.validate (mkRegexOnlyEnv defaultThresholds) ("hello world") 1
        none none = .ok (b, ev, rs) ∧
      (ev.severity_level = .info ↔ ev.event_type = .allowed) := by
  have hm0 : matchedInjectionPatterns ("hello world") = [] := by decide
  have hb : detectorNoWordlist.detect_blockchain_address ("hello world") = [] := by decide
  have hp : detectorNoWordlist.detect_private_key ("hello world") = [] := by decide
  have hk : API_KEY_PATTERNS.flatMap (fun p => apiFindAllStrings p ("hello world")) = [] := by
    decide
  have ha : detectorNoWordlist.detect_api_key ("hello world") = [] := by
    unfold PatternDetector.detect_api_key
    rw [hk]
  have hdet : detectorNoWordlist.detect_all ("hello world") = [] := by
    unfold PatternDetector.detect_all PatternDetector.detect_prompt_injection
    rw [hm0, hb, hp, ha]
    rfl
  have hval : ∃ b ev rs,
      ValidationOrchestrator.validate (mkRegexOnlyEnv defaultThresholds) ("hello world") 1
        none none = .ok (b, ev, rs) := by
    unfold ValidationOrchestrator.validate aggregateStages nerStage regexStage embeddingStage
    simp only [mkRegexOnlyEnv, regexOnlyConfig]
    rw [hdet]
    exact ⟨_, _, _, rfl⟩
  obtain ⟨b, ev, rs, hval⟩ := hval
  exact ⟨b, ev, rs, hval, severity_info_iff_allowed _ _ _ _ _ _ _ _ hval⟩

/-- C3: evaluation at the failing input `token sk-proj_abcdefghijklm`.
The API-key detection pattern allows underscores in the key body, so the
key is detected (recorded matched text is the group-1 capture `sk`; the
full matched span is the whole key), but `redact_api_key`'s substitution
pattern does not allow underscores, so the call blocks while the emitted
event's redacted_content still contains the whole detected key — and in
particular the recorded span `sk`. -/
theorem api_key_redaction_gap_failing_input :
    detectorNoWordlist.detect_all ("token sk-proj_abcdefghijklm") =
      [⟨.api_key_leak, 9/10, "sk"⟩] ∧
    (findAllCI apiPat1.m ("token sk-proj_abcdefghijklm")).map
      (fun sp => spanText ("token sk-proj_abcdefghijklm").toList sp.start sp.len) =
      ["sk-proj_abcdefghijklm"] ∧
    redact_api_key ("token sk-proj_abcdefghijklm") = "token sk-proj_abcdefghijklm" ∧
    (ValidationOrchestrator.validate (mkRegexOnlyEnv defaultThresholds)
        ("token sk-proj_abcdefghijklm") 1 none none).map
      (fun r => (r.1, r.2.1.event_type,
        strContains r.2.1.redacted_content ("sk-proj_abcdefghijklm"),
        strContains r.2.1.redacted_content ("sk"))) =
      .ok (true, .blocked, true, true) := by
  have hm0 : matchedInjectionPatterns ("token sk-proj_abcdefghijklm") = [] := by decide
  have hb : detectorNoWordlist.detect_blockchain_address ("token sk-proj_abcdefghijklm") = [] := by
    decide
  have hp : detectorNoWordlist.detect_private_key ("token sk-proj_abcdefghijklm") = [] := by decide
  have hk : API_KEY_PATTERNS.flatMap
      (fun p => apiFindAllStrings p ("token sk-proj_abcdefghijklm")) = ["sk"] := by decide
  have hc : (API_CONTEXT_KEYWORDS.any fun kw =>
      strContains (strLower ("token sk-proj_abcdefghijklm")) kw) = true := by decide
  have ha : detectorNoWordlist.detect_api_key ("token sk-proj_abcdefghijklm") =
      [⟨.api_key_leak, 9/10, "sk"⟩] := by
    unfold PatternDetector.detect_api_key
    rw [hk]
    simp [hc]
  have hdet : detectorNoWordlist.detect_all ("token sk-proj_abcdefghijklm") =
      [⟨.api_key_leak, 9/10, "sk"⟩] := by
    unfold PatternDetector.detect_all PatternDetector.detect_prompt_injection
    rw [hm0, hb, hp, ha]
    rfl
  have hredc : redact_content ("token sk-proj_abcdefghijklm") [(.api_key_leak, ["sk"])] =
      "token sk-proj_abcdefghijklm... [Threats detected: api_key_leak:1]" := by rfl
  have hc1 : strContains ("token sk-proj_abcdefghijklm... [Threats detected: api_key_leak:1]")
      ("sk-proj_abcdefghijklm") = true := by decide
  have hc2 : strContains ("token sk-proj_abcdefghijklm... [Threats detected: api_key_leak:1]")
      ("sk") = true := by decide
  refine ⟨hdet, by rfl, by rfl, ?_⟩
  unfold ValidationOrchestrator.validate aggregateStages nerStage regexStage embeddingStage
  simp only [mkRegexOnlyEnv, regexOnlyConfig]
  rw [hdet]
  norm_num [guardStage, ConfidenceThresholdManager.should_block,
    ConfidenceThresholdManager.get_action, ConfidenceThresholdManager.get_confidence_level,
    ConfidenceThresholdManager.get_severity, criticalThreats, highSeverityThreats,
    defaultThresholds, addThreatEntry, Except.map, hredc, hc1, hc2]
  rfl

theorem update_pattern_count (s : PatternStore Emb) (i c t : Nat) :
    (s.update_pattern i c t).count_patterns = s.count_patterns := by
  unfold PatternStore.update_pattern PatternStore.count_patterns
  split <;> simp

/-- C7: `learn_pattern` (the absorb operation).  If some stored pattern
has cosine similarity ≥ 0.95 to the new text's embedding, no pattern is
added (the count is unchanged), the nearest stored pattern's
detection_count is incremented by one with last_seen set to now, and
nothing is returned; otherwise a fresh pattern with detection_count 1 is
appended and its id returned. -/
theorem learn_pattern_dedupe (Emb : Type) (dist : Emb → Emb → ℚ) (encode : String → Emb)
    (s : PatternStore Emb) (text : String) (kinds : List ThreatType) (conf : ℚ)
    (fid now : Nat) :
    ((∃ en ∈ s.entries, (19/20 : ℚ) ≤ 1 - dist (encode text) en.embedding) →
      (learn_pattern dist encode s text kinds conf fid now).1 = none ∧
      (learn_pattern dist encode s text kinds conf fid now).2.count_patterns =
        s.count_patterns ∧
      ∃ en0 ∈ s.entries, (19/20 : ℚ) ≤ 1 - dist (encode text) en0.embedding ∧
        (learn_pattern dist encode s text kinds conf fid now).2 =
          s.update_pattern en0.id (en0.pattern.detection_count + 1) now) ∧
    ((∀ en ∈ s.entries, 1 - dist (encode text) en.embedding < 19/20) →
      (learn_pattern dist encode s text kinds conf fid now).1 = some fid ∧
      (learn_pattern dist encode s text kinds conf fid now).2.count_patterns =
        s.count_patterns + 1 ∧
      ∃ en : ChromaEntry Emb,
        (learn_pattern dist encode s text kinds conf fid now).2.entries =
          s.entries ++ [en] ∧ en.id = fid ∧ en.pattern.detection_count = 1) := by
  have htot : ∀ a b : ChromaEntry Emb,
      decide (dist (encode text) a.embedding ≤ dist (encode text) b.embedding) = true ∨
      decide (dist (encode text) b.embedding ≤ dist (encode text) a.embedding) = true := by
    intro a b
    rcases le_total (dist (encode text) a.embedding) (dist (encode text) b.embedding) with hh | hh
    · exact Or.inl (decide_eq_true hh)
    · exact Or.inr (decide_eq_true hh)
  have htr : ∀ a b c : ChromaEntry Emb,
      decide (dist (encode text) a.embedding ≤ dist (encode text) b.embedding) = true →
      decide (dist (encode text) b.embedding ≤ dist (encode text) c.embedding) = true →
      decide (dist (encode text) a.embedding ≤ dist (encode text) c.embedding) = true := by
    intro a b c h1 h2
    exact decide_eq_true ((of_decide_eq_true h1).trans (of_decide_eq_true h2))
  constructor
  · rintro ⟨en, hen, hsim⟩
    obtain ⟨h, t, hsorted⟩ : ∃ h t,
        pySortBy (fun a b : ChromaEntry Emb =>
          decide (dist (encode text) a.embedding ≤ dist (encode text) b.embedding))
          s.entries = h :: t := by
      rcases hs : pySortBy (fun a b : ChromaEntry Emb =>
          decide (dist (encode text) a.embedding ≤ dist (encode text) b.embedding))
          s.entries with _ | ⟨h, t⟩
      · have := (pySortBy_perm (fun a b : ChromaEntry Emb =>
          decide (dist (encode text) a.embedding ≤ dist (encode text) b.embedding))
          s.entries).symm.mem_iff.mp hen
        rw [hs] at this
        cases this
      · exact ⟨h, t, rfl⟩
    have hle := pySortBy_head_le _ htot htr s.entries h t hsorted en hen
    have hdist : dist (encode text) h.embedding ≤ dist (encode text) en.embedding :=
      of_decide_eq_true hle
    have hsimh : (19/20 : ℚ) ≤ 1 - dist (encode text) h.embedding :=
      hsim.trans (by linarith)
    have hmem : h ∈ s.entries := by
      have : h ∈ h :: t := List.mem_cons_self h t
      rw [← hsorted] at this
      exact (pySortBy_perm _ s.entries).mem_iff.mp this
    have hq : s.query_similar dist (encode text) 1 (19/20) =
        [(h.id, 1 - dist (encode text) h.embedding, h.pattern)] := by
      unfold PatternStore.query_similar chromaQuery
      rw [hsorted]
      simp [List.take, not_lt.mpr hsimh]
    have hlearn : learn_pattern dist encode s text kinds conf fid now =
        (none, s.update_pattern h.id (h.pattern.detection_count + 1) now) := by
      unfold learn_pattern PatternStore.check_duplicate
      simp only [hq]
    rw [hlearn]
    exact ⟨rfl, update_pattern_count s h.id (h.pattern.detection_count + 1) now,
      h, hmem, hsimh, rfl⟩
  · intro hall
    have hq : s.query_similar dist (encode text) 1 (19/20) = [] := by
      unfold PatternStore.query_similar chromaQuery
      rcases hs : pySortBy (fun a b : ChromaEntry Emb =>
          decide (dist (encode text) a.embedding ≤ dist (encode text) b.embedding))
          s.entries with _ | ⟨h, t⟩
      · simp
      · have hmem : h ∈ s.entries := by
          have : h ∈ h :: t := List.mem_cons_self h t
          rw [← hs] at this
          exact (pySortBy_perm _ s.entries).mem_iff.mp this
        simp [List.take, hall h hmem]
    have hlearn : learn_pattern dist encode s text kinds conf fid now =
        (some fid, s.add_pattern
          { id := fid, pattern_text := String.mk (text.toList.take 500),
            threat_types := kinds, confidence_level := conf, detection_count := 1,
            first_seen := now, last_seen := now } (encode text)) := by
      unfold learn_pattern PatternStore.check_duplicate
      simp only [hq]
    rw [hlearn]
    refine ⟨rfl, ?_, ⟨fid, encode text,
      { id := fid, pattern_text := String.mk (text.toList.take 500),
        threat_types := kinds, confidence_level := conf, detection_count := 1,
        first_seen := now, last_seen := now }⟩, rfl, rfl, rfl⟩
    simp [PatternStore.add_pattern, PatternStore.count_patterns]






/-- C7 witness: on a one-entry store whose embedding coincides with the
new text's (similarity 1 ≥ 0.95) absorb dedupes; on the empty store it
adds a fresh pattern with detection_count 1 and returns its id. -/
theorem learn_pattern_dedupe_witness :
    ((learn_pattern distW encodeW storeW ("w") [.prompt_injection] (9/10) 6 2).1 = none ∧
     (learn_pattern distW encodeW storeW ("w") [.prompt_injection] (9/10) 6 2).2.count_patterns =
       storeW.count_patterns ∧
     ∃ en0 ∈ storeW.entries, (19/20 : ℚ) ≤ 1 - distW (encodeW ("w")) en0.embedding ∧
       (learn_pattern distW encodeW storeW ("w") [.prompt_injection] (9/10) 6 2).2 =
         storeW.update_pattern en0.id (en0.pattern.detection_count + 1) 2) ∧
    ((learn_pattern distW encodeW emptyStoreW ("x") [.pii] (1/2) 6 2).1 = some 6 ∧
     (learn_pattern distW encodeW emptyStoreW ("x") [.pii] (1/2) 6 2).2.count_patterns =
       emptyStoreW.count_patterns + 1 ∧
     ∃ en : ChromaEntry Nat,
       (learn_pattern distW encodeW emptyStoreW ("x") [.pii] (1/2) 6 2).2.entries =
         emptyStoreW.entries ++ [en] ∧ en.id = 6 ∧ en.pattern.detection_count = 1) := by
  constructor
  · exact (learn_pattern_dedupe Nat distW encodeW storeW ("w") [.prompt_injection] (9/10)
      6 2).1 ⟨⟨5, 0, patW⟩, by simp [storeW], by norm_num [distW, encodeW]⟩
  · exact (learn_pattern_dedupe Nat distW encodeW emptyStoreW ("x") [.pii] (1/2) 6 2).2
      (by intro en hen; simp [emptyStoreW] at hen)
